import Mathlib

/-!
Shallow embedding of the offer/transaction lifecycle engine and the
notification subsystem of the next-microservices repository
(article-microservices service), together with proofs about the claims
of its specification.

The persistent store (Prisma over MySQL) is modelled as an explicit
record of lists (`DB`).  Each HTTP controller becomes a pure function
`DB → ... → Resp × DB`; route-level concerns (JSON parsing, BigInt
serialisation) are outside the model.  Timestamps are naturals
(milliseconds, as in JS `Date.now()`); prices are integers (the claims
never do arithmetic on them).  Randomly generated references
(`PAY_...`, `REL_...`) are passed in as parameters.
-/

namespace NextMicro

/-- Offer status enum from prisma/schema.prisma (`enum Status`). -/
inductive OfferStatus where
  | PENDING
  | DENIED
  | ACCEPTED
  | DONE
  | CANCELLED
  deriving DecidableEq, Repr

/-- Transaction status values used by transaction.controller.js and
services/transactionService.js. -/
inductive TxnStatus where
  | PAYMENT_PENDING
  | PAYMENT_CONFIRMED
  | SHIPPED
  | COMPLETED
  | CANCELLED
  | DISPUTED
  deriving DecidableEq, Repr

/-- Article row (model Article): only the fields the offer/transaction
engine reads or writes (owner, published, boughtBy, name). -/
structure Article where
  id : Nat
  owner : String
  published : Bool
  boughtBy : Option String
  name : String
  updatedDate : Nat
  deriving DecidableEq, Repr

/-- Offer row (model Offer).  The denormalised display columns
(articleCategory, articleSize, mainImage) are not modelled. -/
structure Offer where
  id : Nat
  articleId : Nat
  articleName : String
  price : Int
  seller : String
  username : String
  status : OfferStatus
  createdDate : Nat
  updatedDate : Nat
  deriving DecidableEq, Repr

/-- Transaction row as written by transaction.controller.js. -/
structure Txn where
  id : Nat
  offerId : Nat
  articleId : Nat
  buyerUsername : String
  sellerUsername : String
  amount : Int
  status : TxnStatus
  paymentReference : String
  shippingAddress : String
  paymentConfirmedAt : Option Nat
  trackingNumber : Option String
  carrier : Option String
  shippedAt : Option Nat
  deliveryConfirmedAt : Option Nat
  paymentReleasedAt : Option Nat
  paymentReleaseReference : Option String
  buyerRating : Option Nat
  buyerReview : Option String
  createdDate : Nat
  updatedDate : Nat
  deriving DecidableEq, Repr

/-- Notification row (model Notification).  The opaque JSON `data`
column is not modelled; the claims only look at recipient, type and the
read flag. -/
structure Notification where
  id : Nat
  userId : String
  ntype : String
  title : String
  message : String
  read : Bool
  createdDate : Nat
  updatedDate : Nat
  deriving DecidableEq, Repr

/-- The persistent store. -/
structure DB where
  articles : List Article
  offers : List Offer
  transactions : List Txn
  notifications : List Notification
  deriving DecidableEq, Repr

/-- HTTP response abstraction: status code, success flag and message of
the JSON body. -/
structure Resp where
  status : Nat
  success : Bool
  message : String
  deriving DecidableEq, Repr

/-- `prisma.article.findUnique({ where: { id } })`. -/
def findArticle (db : DB) (aid : Nat) : Option Article :=
  db.articles.find? (fun a => a.id == aid)

/-- `prisma.offer.findUnique({ where: { id } })`. -/
def findOffer (db : DB) (oid : Nat) : Option Offer :=
  db.offers.find? (fun o => o.id == oid)

/-- `prisma.offer.findUnique({ where: { articleId_username } })` — the
composite unique key of the Offer model. -/
def findOfferByPair (db : DB) (aid : Nat) (username : String) : Option Offer :=
  db.offers.find? (fun o => o.articleId == aid && o.username == username)

/-- `prisma.transaction.findUnique({ where: { id } })`. -/
def findTxn (db : DB) (tid : Nat) : Option Txn :=
  db.transactions.find? (fun t => t.id == tid)

/-- `prisma.transaction.findFirst({ where: { offerId } })`. -/
def findTxnByOffer (db : DB) (oid : Nat) : Option Txn :=
  db.transactions.find? (fun t => t.offerId == oid)

/-- `prisma.notification.findFirst({ where: { id, userId } })`. -/
def findNotifOwned (db : DB) (nid : Nat) (username : String) : Option Notification :=
  db.notifications.find? (fun n => n.id == nid && n.userId == username)

/-- `prisma.offer.update({ where: { id } , data })`: every row whose id
matches is rewritten by `f`. -/
def updateOfferById (db : DB) (oid : Nat) (f : Offer → Offer) : DB :=
  { db with offers := db.offers.map (fun o => if o.id == oid then f o else o) }

/-- `prisma.transaction.update({ where: { id }, data })`. -/
def updateTxnById (db : DB) (tid : Nat) (f : Txn → Txn) : DB :=
  { db with transactions := db.transactions.map (fun t => if t.id == tid then f t else t) }

/-- `prisma.article.update({ where: { id }, data })`. -/
def updateArticleById (db : DB) (aid : Nat) (f : Article → Article) : DB :=
  { db with articles := db.articles.map (fun a => if a.id == aid then f a else a) }

/-- `prisma.notification.update({ where: { id }, data })`. -/
def updateNotifById (db : DB) (nid : Nat) (f : Notification → Notification) : DB :=
  { db with notifications := db.notifications.map (fun n => if n.id == nid then f n else n) }

/-- Autoincrement id for a new notification row. -/
def freshNotifId (db : DB) : Nat :=
  (db.notifications.map (fun n => n.id)).foldr Nat.max 0 + 1

/-- Autoincrement id for a new offer row. -/
def freshOfferId (db : DB) : Nat :=
  (db.offers.map (fun o => o.id)).foldr Nat.max 0 + 1

/-- Autoincrement id for a new transaction row. -/
def freshTxnId (db : DB) : Nat :=
  (db.transactions.map (fun t => t.id)).foldr Nat.max 0 + 1

/-- Store-write half of `NotificationService.createNotification`: the
record is persisted (`prisma.notification.create`).  The subsequent SSE
push never touches the store; the registry side is modelled separately
by `createNotification` below. -/
def notifPersist (db : DB) (userId ntype title message : String) (now : Nat) :
    Notification × DB :=
  let n : Notification :=
    { id := freshNotifId db, userId := userId, ntype := ntype, title := title,
      message := message, read := false, createdDate := now, updatedDate := now }
  (n, { db with notifications := db.notifications ++ [n] })

/-- Recipient/title/message template table of
`NotificationService.createOfferNotification`: NEW_OFFER, OFFER_UPDATED,
OFFER_CANCELLED and OFFER_CONCLUDED go to the seller; OFFER_ACCEPTED and
OFFER_DENIED go to the buyer; unknown types produce nothing. -/
def offerNotifTarget (offer : Offer) (ntype : String) : Option (String × String × String) :=
  if ntype = "NEW_OFFER" then
    some (offer.seller, "New Offer Received",
      offer.username ++ " made an offer of $" ++ toString offer.price ++
        " for your " ++ offer.articleName)
  else if ntype = "OFFER_UPDATED" then
    some (offer.seller, "Offer Updated",
      offer.username ++ " updated their offer to $" ++ toString offer.price ++
        " for your " ++ offer.articleName)
  else if ntype = "OFFER_ACCEPTED" then
    some (offer.username, "Offer Accepted!",
      "Your offer of $" ++ toString offer.price ++ " for " ++ offer.articleName ++
        " has been accepted")
  else if ntype = "OFFER_DENIED" then
    some (offer.username, "Offer Declined",
      "Your offer of $" ++ toString offer.price ++ " for " ++ offer.articleName ++
        " has been declined")
  else if ntype = "OFFER_CANCELLED" then
    some (offer.seller, "Offer Cancelled",
      "The offer from " ++ offer.username ++ " for " ++ offer.articleName ++
        " has been cancelled")
  else if ntype = "OFFER_CONCLUDED" then
    some (offer.seller, "Transaction Completed",
      "Transaction completed! " ++ offer.username ++ " has confirmed receipt of " ++
        offer.articleName)
  else none

/-- `NotificationService.createOfferNotification` restricted to its
store effect. -/
def createOfferNotification (db : DB) (offer : Offer) (ntype : String) (now : Nat) : DB :=
  match offerNotifTarget offer ntype with
  | none => db
  | some (uid, title, msg) => (notifPersist db uid ntype title msg now).2

/-- Offer row created by `createOffer` for a first submission
(`prisma.offer.create`). -/
def mkOffer (db : DB) (articleId : Nat) (article : Article) (price : Int)
    (username : String) (now : Nat) : Offer :=
  { id := freshOfferId db, articleId := articleId, articleName := article.name,
    price := price, seller := article.owner, username := username,
    status := OfferStatus.PENDING, createdDate := now, updatedDate := now }

/-- `createOffer` from controllers/offer.controller.js.  `articleId?`,
`price?` and `username?` are `none` when the corresponding request field
or the x-user-username header is absent; a price of 0 is also caught by
the JS falsiness check `!price`. -/
def createOffer (db : DB) (articleId? : Option Nat) (price? : Option Int)
    (username? : Option String) (now : Nat) : Resp × DB :=
  match username? with
  | none => ({ status := 401, success := false, message := "Authentication required" }, db)
  | some username =>
    match articleId?, price? with
    | none, _ =>
      ({ status := 400, success := false, message := "Article ID and price are required" }, db)
    | _, none =>
      ({ status := 400, success := false, message := "Article ID and price are required" }, db)
    | some articleId, some price =>
      if price = 0 then
        ({ status := 400, success := false, message := "Article ID and price are required" }, db)
      else if price ≤ 0 then
        ({ status := 400, success := false,
           message := "Price must be a valid positive number" }, db)
      else
        match findArticle db articleId with
        | none => ({ status := 404, success := false, message := "Article not found" }, db)
        | some article =>
          if !article.published then
            ({ status := 400, success := false,
               message := "Cannot make offers on unpublished articles" }, db)
          else if article.owner = username then
            ({ status := 400, success := false,
               message := "You cannot make an offer on your own article" }, db)
          else
            match findOfferByPair db articleId username with
            | some existingOffer =>
              let updated : Offer :=
                { existingOffer with
                  price := price,
                  status := OfferStatus.PENDING,
                  updatedDate := now }
              let db1 := updateOfferById db existingOffer.id
                (fun o =>
                  { o with
                    price := price,
                    status := OfferStatus.PENDING,
                    updatedDate := now })
              let db2 := createOfferNotification db1 updated "OFFER_UPDATED" now
              ({ status := 200, success := true, message := "Offer updated successfully" }, db2)
            | none =>
              let offer := mkOffer db articleId article price username now
              let db1 := { db with offers := db.offers ++ [offer] }
              let db2 := createOfferNotification db1 offer "NEW_OFFER" now
              ({ status := 201, success := true, message := "Offer created successfully" }, db2)

/-- `updateOfferStatusBySeller` from controllers/offer.controller.js.
The handler validates `action` against ACCEPTED/DENIED, but the body
never uses `action` again: it runs the cancel flow (source states
PENDING or ACCEPTED, target CANCELLED, OFFER_CANCELLED notification to
the seller).  The ownership check present in the source is commented
out there, so it is absent here as well. -/
def updateOfferStatusBySeller (db : DB) (offerId : Nat) (action : String)
    (seller? : Option String) (now : Nat) : Resp × DB :=
  match seller? with
  | none => ({ status := 401, success := false, message := "Authentication required" }, db)
  | some _seller =>
    if !(action = "ACCEPTED" || action = "DENIED") then
      ({ status := 400, success := false, message := "Action must be ACCEPTED or DENIED" }, db)
    else
      match findOffer db offerId with
      | none => ({ status := 404, success := false, message := "Offer not found" }, db)
      | some offer =>
        if !(offer.status = OfferStatus.PENDING || offer.status = OfferStatus.ACCEPTED) then
          ({ status := 400, success := false,
             message := "Only pending or accepted offers can be cancelled" }, db)
        else
          let cancelled : Offer :=
            { offer with status := OfferStatus.CANCELLED, updatedDate := now }
          let db1 := updateOfferById db offerId
            (fun o => { o with status := OfferStatus.CANCELLED, updatedDate := now })
          let db2 := createOfferNotification db1 cancelled "OFFER_CANCELLED" now
          ({ status := 200, success := true, message := "Offer cancelled successfully" }, db2)

/-- Status of an offer row in a store, by id. -/
def offerStatusIn (db : DB) (oid : Nat) : Option OfferStatus :=
  (findOffer db oid).map (fun o => o.status)

/-- Status of a transaction row in a store, by id. -/
def txnStatusIn (db : DB) (tid : Nat) : Option TxnStatus :=
  (findTxn db tid).map (fun t => t.status)

/-- Store with one published article of alice and one PENDING offer by
bob, used to exercise the seller-decision endpoint. -/
def c1Db : DB :=
  { articles := [{ id := 1, owner := "alice", published := true, boughtBy := none,
                   name := "Hat", updatedDate := 0 }],
    offers := [{ id := 1, articleId := 1, articleName := "Hat", price := 50,
                 seller := "alice", username := "bob", status := OfferStatus.PENDING,
                 createdDate := 0, updatedDate := 0 }],
    transactions := [], notifications := [] }

/-- Same store but with the offer already ACCEPTED. -/
def c1DbAccepted : DB :=
  { c1Db with offers := [{ id := 1, articleId := 1, articleName := "Hat", price := 50,
                           seller := "alice", username := "bob",
                           status := OfferStatus.ACCEPTED,
                           createdDate := 0, updatedDate := 0 }] }


/-- Shipping address object of the initiate request body. -/
structure ShippingAddress where
  fullName : String
  street : String
  city : String
  postalCode : String
  country : String
  deriving DecidableEq, Repr

/-- Model of the JS falsiness check `!field?.trim()`: a field is
missing when it is empty or whitespace-only.  (`String.trim` itself is
avoided because the kernel cannot reduce it.) -/
def isBlank (s : String) : Bool :=
  s.toList.all (fun c => c == ' ')

/-- Stand-in for `JSON.stringify(shippingAddress)`. -/
def encodeShipping (sa : ShippingAddress) : String :=
  sa.fullName ++ ";" ++ sa.street ++ ";" ++ sa.city ++ ";" ++ sa.postalCode ++ ";" ++ sa.country

/-- Transaction row created by `initiateTransaction`
(`prisma.transaction.create`). -/
def mkTransaction (db : DB) (offerId : Nat) (offer : Offer) (buyerUsername : String)
    (now : Nat) (paymentReference : String) (sa : ShippingAddress) : Txn :=
  { id := freshTxnId db, offerId := offerId, articleId := offer.articleId,
    buyerUsername := buyerUsername, sellerUsername := offer.seller,
    amount := offer.price, status := TxnStatus.PAYMENT_PENDING,
    paymentReference := paymentReference, shippingAddress := encodeShipping sa,
    paymentConfirmedAt := none, trackingNumber := none, carrier := none,
    shippedAt := none, deliveryConfirmedAt := none, paymentReleasedAt := none,
    paymentReleaseReference := none, buyerRating := none, buyerReview := none,
    createdDate := now, updatedDate := now }

/-- `initiateTransaction` from controllers/transaction.controller.js,
up to the 201 response.  The 3-second `setTimeout` body is modelled
separately as `confirmPaymentCallback`, which the scheduler runs later
with the values this handler captured.  `paymentReference` stands for
the generated `PAY_...` string. -/
def initiateTransaction (db : DB) (offerId? : Option Nat)
    (shippingAddress? : Option ShippingAddress) (buyer? : Option String)
    (now : Nat) (paymentReference : String) : Resp × DB :=
  match buyer? with
  | none => ({ status := 401, success := false, message := "Authentication required" }, db)
  | some buyerUsername =>
    match offerId?, shippingAddress? with
    | none, _ =>
      ({ status := 400, success := false,
         message := "Offer ID and shipping address are required" }, db)
    | _, none =>
      ({ status := 400, success := false,
         message := "Offer ID and shipping address are required" }, db)
    | some offerId, some sa =>
      if isBlank sa.fullName then
        ({ status := 400, success := false,
           message := "Shipping address field 'fullName' is required" }, db)
      else if isBlank sa.street then
        ({ status := 400, success := false,
           message := "Shipping address field 'street' is required" }, db)
      else if isBlank sa.city then
        ({ status := 400, success := false,
           message := "Shipping address field 'city' is required" }, db)
      else if isBlank sa.postalCode then
        ({ status := 400, success := false,
           message := "Shipping address field 'postalCode' is required" }, db)
      else if isBlank sa.country then
        ({ status := 400, success := false,
           message := "Shipping address field 'country' is required" }, db)
      else
        match findOffer db offerId with
        | none => ({ status := 404, success := false, message := "Offer not found" }, db)
        | some offer =>
          if offer.username ≠ buyerUsername then
            ({ status := 403, success := false,
               message := "You are not authorized to purchase this item" }, db)
          else if offer.status ≠ OfferStatus.ACCEPTED then
            ({ status := 400, success := false,
               message := "Offer must be accepted before initiating transaction" }, db)
          else
            match findTxnByOffer db offerId with
            | some _ =>
              ({ status := 400, success := false,
                 message := "Transaction already exists for this offer" }, db)
            | none =>
              let transaction := mkTransaction db offerId offer buyerUsername now paymentReference sa
              ({ status := 201, success := true,
                 message := "Transaction initiated successfully. Payment is being processed." },
               { db with transactions := db.transactions ++ [transaction] })

/-- Body of the `setTimeout` scheduled by `initiateTransaction`.  It
updates the transaction and offer rows by id only — no expected-status
condition — and appends PAYMENT_CONFIRMED notifications for both
parties.  `offer` and `buyerUsername` are the values captured by the
closure when initiate ran.  A missing row makes the prisma update
throw; the catch only logs, so later steps are skipped. -/
def confirmPaymentCallback (db : DB) (transactionId : Nat) (offerId : Nat)
    (offer : Offer) (buyerUsername : String) (now : Nat) : DB :=
  match findTxn db transactionId with
  | none => db
  | some _ =>
    let db1 := updateTxnById db transactionId
      (fun t =>
        { t with
          status := TxnStatus.PAYMENT_CONFIRMED,
          paymentConfirmedAt := some now,
          updatedDate := now })
    match findOffer db1 offerId with
    | none => db1
    | some _ =>
      let db2 := updateOfferById db1 offerId
        (fun o => { o with status := OfferStatus.DONE, updatedDate := now })
      let db3 := (notifPersist db2 offer.seller "PAYMENT_CONFIRMED" "Payment Received!"
        ("Payment of $" ++ toString offer.price ++ " has been confirmed for \"" ++
          offer.articleName ++ "\". Please prepare the item for shipping.") now).2
      (notifPersist db3 buyerUsername "PAYMENT_CONFIRMED" "Payment Confirmed"
        ("Your payment of $" ++ toString offer.price ++ " for \"" ++ offer.articleName ++
          "\" has been confirmed. The seller will ship the item soon.") now).2

/-- `cancelTransaction` from controllers/transaction.controller.js:
buyer-only, PAYMENT_PENDING-only; sets the transaction CANCELLED,
unconditionally reverts the offer to ACCEPTED and notifies the
seller. -/
def cancelTransaction (db : DB) (tid : Nat) (username? : Option String) (now : Nat) :
    Resp × DB :=
  match username? with
  | none => ({ status := 401, success := false, message := "Authentication required" }, db)
  | some username =>
    match findTxn db tid with
    | none => ({ status := 404, success := false, message := "Transaction not found" }, db)
    | some transaction =>
      if transaction.buyerUsername ≠ username then
        ({ status := 403, success := false,
           message := "Only the buyer can cancel a transaction" }, db)
      else if transaction.status ≠ TxnStatus.PAYMENT_PENDING then
        ({ status := 400, success := false,
           message := "Can only cancel transactions with pending payment" }, db)
      else
        let db1 := updateTxnById db tid
          (fun t => { t with status := TxnStatus.CANCELLED, updatedDate := now })
        match findOffer db1 transaction.offerId with
        | none =>
          ({ status := 500, success := false, message := "Error cancelling transaction" }, db1)
        | some off =>
          let db2 := updateOfferById db1 transaction.offerId
            (fun o => { o with status := OfferStatus.ACCEPTED, updatedDate := now })
          let db3 := (notifPersist db2 transaction.sellerUsername "TRANSACTION_CANCELLED"
            "Transaction Cancelled"
            ("The buyer cancelled the transaction for \"" ++ off.articleName ++ "\".") now).2
          ({ status := 200, success := true,
             message := "Transaction cancelled successfully" }, db3)

/-- `confirmDelivery` from controllers/transaction.controller.js.
`relRef` stands for the generated `REL_...` payment-release reference.
A missing article or offer row makes a later prisma call throw after
the transaction row was already updated; the catch answers 500. -/
def confirmDelivery (db : DB) (tid : Nat) (buyer? : Option String)
    (rating : Option Nat) (review : Option String) (now : Nat) (relRef : String) :
    Resp × DB :=
  match buyer? with
  | none => ({ status := 401, success := false, message := "Authentication required" }, db)
  | some buyerUsername =>
    match findTxn db tid with
    | none => ({ status := 404, success := false, message := "Transaction not found" }, db)
    | some transaction =>
      if transaction.buyerUsername ≠ buyerUsername then
        ({ status := 403, success := false,
           message := "You are not authorized to update this transaction" }, db)
      else if transaction.status ≠ TxnStatus.SHIPPED then
        ({ status := 400, success := false,
           message := "Item must be shipped before confirming delivery" }, db)
      else
        let db1 := updateTxnById db tid
          (fun t =>
            { t with
              status := TxnStatus.COMPLETED,
              deliveryConfirmedAt := some now,
              paymentReleasedAt := some now,
              paymentReleaseReference := some relRef,
              buyerRating := rating,
              buyerReview := review,
              updatedDate := now })
        match findArticle db1 transaction.articleId with
        | none =>
          ({ status := 500, success := false, message := "Error confirming delivery" }, db1)
        | some _ =>
          let db2 := updateArticleById db1 transaction.articleId
            (fun a =>
              { a with
                boughtBy := some buyerUsername,
                published := false,
                updatedDate := now })
          match findOffer db2 transaction.offerId with
          | none =>
            ({ status := 500, success := false, message := "Error confirming delivery" }, db2)
          | some off =>
            let db3 := (notifPersist db2 transaction.sellerUsername "PAYMENT_RELEASED"
              "Payment Released!"
              ("Payment of $" ++ toString transaction.amount ++ " has been released for \"" ++
                off.articleName ++ "\". The transaction is now complete.") now).2
            let db4 := (notifPersist db3 buyerUsername "TRANSACTION_COMPLETED"
              "Transaction Complete!"
              ("Your purchase of \"" ++ off.articleName ++
                "\" is now complete. Thank you for your business!") now).2
            ({ status := 200, success := true,
               message := "Delivery confirmed and payment released successfully" }, db4)

/-- Store with an ACCEPTED offer of bob on alice's article, ready for
initiate. -/
def c2Db0 : DB :=
  { articles := [{ id := 1, owner := "alice", published := true, boughtBy := none,
                   name := "Hat", updatedDate := 0 }],
    offers := [{ id := 1, articleId := 1, articleName := "Hat", price := 50,
                 seller := "alice", username := "bob", status := OfferStatus.ACCEPTED,
                 createdDate := 0, updatedDate := 0 }],
    transactions := [], notifications := [] }

/-- Offer row as captured by the initiate closure in the C2 scenario. -/
def c2Offer : Offer :=
  { id := 1, articleId := 1, articleName := "Hat", price := 50, seller := "alice",
    username := "bob", status := OfferStatus.ACCEPTED, createdDate := 0, updatedDate := 0 }

/-- Shipping address used in the C2 scenario. -/
def c2Shipping : ShippingAddress :=
  { fullName := "Bob Buyer", street := "1 Way", city := "Town", postalCode := "9",
    country := "Z" }

/-- Store after bob initiates the transaction (id 1, PAYMENT_PENDING). -/
def c2Db1 : DB :=
  (initiateTransaction c2Db0 (some 1) (some c2Shipping) (some "bob") 100 "PAY_1").2

/-- Store after bob cancels the transaction before the payment delay
elapses. -/
def c2Db2 : DB := (cancelTransaction c2Db1 1 (some "bob") 200).2

/-- Store after the delayed confirmation callback finally fires. -/
def c2Db3 : DB := confirmPaymentCallback c2Db2 1 1 c2Offer "bob" 300

/-- 24 hours in milliseconds. -/
def twentyFourHoursMs : Nat := 24 * 60 * 60 * 1000

/-- Row condition of the `findMany` in
`TransactionService.cleanupExpiredTransactions`: PAYMENT_PENDING and
created before `now - 24h`. -/
def isExpired (now : Nat) (t : Txn) : Bool :=
  t.status == TxnStatus.PAYMENT_PENDING && decide (t.createdDate < now - twentyFourHoursMs)

/-- The `findMany` snapshot of the expiry sweep: each stale
PAYMENT_PENDING transaction paired with its included offer row as read
at query time. -/
def expiredSnapshot (db : DB) (now : Nat) : List (Txn × Option Offer) :=
  (db.transactions.filter (isExpired now)).map (fun t => (t, findOffer db t.offerId))

/-- Loop of `cleanupExpiredTransactions`.  `fails` is the set of
transaction ids whose status update throws (PersistenceError).  The
source has no per-record try/catch: a throw propagates to the outer
catch, which logs and rethrows, so the Bool component is false and the
remaining records are left untouched while earlier writes are kept.  A
missing included offer also aborts (the `transaction.offer.status`
access throws), after the transaction row was already cancelled. -/
def processExpired (fails : List Nat) (now : Nat) :
    List (Txn × Option Offer) → DB → Bool × DB
  | [], db => (true, db)
  | (t, osnap) :: rest, db =>
    if t.id ∈ fails then (false, db)
    else
      let db1 := updateTxnById db t.id
        (fun x => { x with status := TxnStatus.CANCELLED, updatedDate := now })
      match osnap with
      | none => (false, db1)
      | some osn =>
        let db2 :=
          if osn.status = OfferStatus.DONE then
            updateOfferById db1 t.offerId
              (fun o => { o with status := OfferStatus.ACCEPTED, updatedDate := now })
          else db1
        let db3 := (notifPersist db2 t.buyerUsername "TRANSACTION_CANCELLED"
          "Transaction Expired"
          ("Your transaction for \"" ++ osn.articleName ++
            "\" has been cancelled due to payment timeout.") now).2
        let db4 := (notifPersist db3 t.sellerUsername "TRANSACTION_CANCELLED"
          "Transaction Expired"
          ("Transaction for \"" ++ osn.articleName ++
            "\" has been cancelled due to buyer payment timeout.") now).2
        processExpired fails now rest db4

/-- `TransactionService.cleanupExpiredTransactions`: snapshot the stale
PAYMENT_PENDING rows, then run the per-record loop.  The Bool component
records whether the run completed without throwing. -/
def cleanupExpiredTransactions (fails : List Nat) (now : Nat) (db : DB) : Bool × DB :=
  processExpired fails now (expiredSnapshot db now) db

/-- Helper transaction row for the sweep scenarios: PAYMENT_PENDING for
offer `oid`, created at time 0. -/
def staleTxn (tid oid : Nat) : Txn :=
  { id := tid, offerId := oid, articleId := oid, buyerUsername := "bob",
    sellerUsername := "alice", amount := 50, status := TxnStatus.PAYMENT_PENDING,
    paymentReference := "PAY", shippingAddress := "addr", paymentConfirmedAt := none,
    trackingNumber := none, carrier := none, shippedAt := none,
    deliveryConfirmedAt := none, paymentReleasedAt := none,
    paymentReleaseReference := none, buyerRating := none, buyerReview := none,
    createdDate := 0, updatedDate := 0 }

/-- Helper offer row for the sweep scenarios. -/
def sweepOffer (oid : Nat) (st : OfferStatus) : Offer :=
  { id := oid, articleId := oid, articleName := "Hat", price := 50, seller := "alice",
    username := "bob", status := st, createdDate := 0, updatedDate := 0 }

/-- Store with two stale PAYMENT_PENDING transactions on two DONE
offers, both eligible for the expiry sweep. -/
def c3Db : DB :=
  { articles := [], offers := [sweepOffer 1 OfferStatus.DONE, sweepOffer 2 OfferStatus.DONE],
    transactions := [staleTxn 1 1, staleTxn 2 2], notifications := [] }

/-- Time at which both transactions of `c3Db` are older than 24 hours. -/
def c3Now : Nat := twentyFourHoursMs + 1000

/-- Store with one stale transaction on a DONE offer, for the C6
witness. -/
def c6Db : DB :=
  { articles := [], offers := [sweepOffer 1 OfferStatus.DONE],
    transactions := [staleTxn 1 1], notifications := [] }

/-- `markAsRead` from controllers/notification.controller.js: look up
the row by id and caller, 404 when absent, no-op success when already
read, otherwise set the read flag (the update itself filters by id
only). -/
def markAsRead (db : DB) (nid : Nat) (username : String) (now : Nat) : Resp × DB :=
  match findNotifOwned db nid username with
  | none => ({ status := 404, success := false, message := "Notification not found" }, db)
  | some notification =>
    if notification.read then
      ({ status := 200, success := true,
         message := "Notification already marked as read" }, db)
    else
      let db1 := updateNotifById db nid (fun m => { m with read := true, updatedDate := now })
      ({ status := 200, success := true, message := "Notification marked as read" }, db1)

/-- `deleteNotification` from controllers/notification.controller.js:
look up by id and caller, 404 when absent, otherwise delete by id. -/
def deleteNotification (db : DB) (nid : Nat) (username : String) : Resp × DB :=
  match findNotifOwned db nid username with
  | none => ({ status := 404, success := false, message := "Notification not found" }, db)
  | some _ =>
    ({ status := 200, success := true, message := "Notification deleted successfully" },
     { db with notifications := db.notifications.filter (fun n => !(n.id == nid)) })

/-- `NotificationService.markAsRead`: throws "Notification not found"
when the row is not owned by the caller, returns the record unchanged
when already read, otherwise updates the read flag and returns the
updated record. -/
def serviceMarkAsRead (db : DB) (nid : Nat) (userId : String) (now : Nat) :
    Except String (Notification × DB) :=
  match findNotifOwned db nid userId with
  | none => .error "Notification not found"
  | some notification =>
    if notification.read then .ok (notification, db)
    else
      .ok ({ notification with read := true, updatedDate := now },
        updateNotifById db nid (fun m => { m with read := true, updatedDate := now }))

/-- `NotificationService.deleteNotification`. -/
def serviceDeleteNotification (db : DB) (nid : Nat) (userId : String) :
    Except String (Notification × DB) :=
  match findNotifOwned db nid userId with
  | none => .error "Notification not found"
  | some notification =>
    .ok (notification,
      { db with notifications := db.notifications.filter (fun n => !(n.id == nid)) })

/-- One live SSE connection (SSE/sseManager.js).  `alive` models
`!response.destroyed && !response.writableEnded`, and also covers a
write that throws; the bytes written to a channel are not tracked. -/
structure SSEConn where
  cid : Nat
  alive : Bool
  connectedAt : Nat
  lastPing : Nat
  deriving DecidableEq, Repr

/-- The module-level `emitters` map of SSE/sseManager.js: recipient to
connection list. -/
structure Registry where
  emitters : List (String × List SSEConn)
  deriving DecidableEq, Repr

/-- `emitters.get(seller)`, empty when the recipient has no entry. -/
def connsFor (reg : Registry) (seller : String) : List SSEConn :=
  match reg.emitters.find? (fun e => e.1 == seller) with
  | some e => e.2
  | none => []

/-- `sendToSeller` from SSE/sseManager.js: returns false (no error)
when no connection is registered; otherwise writes to every live
connection, drops dead ones, drops the recipient entry when no live
connection survives, and reports whether at least one connection got
the event. -/
def sendToSeller (reg : Registry) (seller : String) (now : Nat) : Bool × Registry :=
  let connections := connsFor reg seller
  if connections.isEmpty then (false, reg)
  else
    let active :=
      (connections.filter (fun c => c.alive)).map (fun c => { c with lastPing := now })
    if active.isEmpty then
      (false, { emitters := reg.emitters.filter (fun e => !(e.1 == seller)) })
    else
      (true,
       { emitters := reg.emitters.map (fun e => if e.1 == seller then (e.1, active) else e) })

/-- `NotificationService.createNotification` with its best-effort SSE
push: the record is persisted first, then (when `sendSSE`) published
through the registry; the publish result is ignored and never affects
the persisted record. -/
def createNotification (db : DB) (reg : Registry) (userId ntype title message : String)
    (sendSSE : Bool) (now : Nat) : Notification × DB × Registry :=
  let n := notifPersist db userId ntype title message now
  if sendSSE then (n.1, n.2, (sendToSeller reg userId now).2)
  else (n.1, n.2, reg)

/-- Store with a single unread notification of bob, for the C9
witness. -/
def c9Db : DB :=
  { articles := [], offers := [], transactions := [],
    notifications := [{ id := 1, userId := "bob", ntype := "NEW_OFFER", title := "t",
                        message := "m", read := false, createdDate := 0, updatedDate := 0 }] }

/-- Registry whose only connection for alice is dead, for the C8
witness. -/
def c8Reg : Registry :=
  { emitters := [("alice", [{ cid := 1, alive := false, connectedAt := 0, lastPing := 0 }])] }

/-- Completely empty store. -/
def emptyDb : DB :=
  { articles := [], offers := [], transactions := [], notifications := [] }

/-- Transaction row in SHIPPED state for the C7 witness. -/
def c7Txn : Txn :=
  { id := 1, offerId := 1, articleId := 1, buyerUsername := "bob",
    sellerUsername := "alice", amount := 50, status := TxnStatus.SHIPPED,
    paymentReference := "PAY", shippingAddress := "addr",
    paymentConfirmedAt := some 10, trackingNumber := some "TR1",
    carrier := some "DHL", shippedAt := some 20, deliveryConfirmedAt := none,
    paymentReleasedAt := none, paymentReleaseReference := none, buyerRating := none,
    buyerReview := none, createdDate := 0, updatedDate := 20 }

/-- Store with a SHIPPED transaction, its DONE offer and its article,
for the C7 witness. -/
def c7Db : DB :=
  { articles := [{ id := 1, owner := "alice", published := true, boughtBy := none,
                   name := "Hat", updatedDate := 0 }],
    offers := [sweepOffer 1 OfferStatus.DONE],
    transactions := [c7Txn], notifications := [] }

/-- All transaction rows referencing an offer. -/
def txnsForOffer (db : DB) (oid : Nat) : List Txn :=
  db.transactions.filter (fun t => t.offerId == oid)

/-- Uniqueness invariant: at most one transaction row per offer. -/
def atMostOneTxnPerOffer (db : DB) : Prop :=
  ∀ oid, (txnsForOffer db oid).length ≤ 1

/-- All offer rows for an (article, buyer) pair. -/
def offersForPair (db : DB) (aid : Nat) (username : String) : List Offer :=
  db.offers.filter (fun o => o.articleId == aid && o.username == username)

/-- Uniqueness invariant of the Offer model's composite unique key. -/
def atMostOneOfferPerPair (db : DB) : Prop :=
  ∀ aid username, (offersForPair db aid username).length ≤ 1

/-! ### Theorems -/

/-- C1: the claim states that the seller decision maps a PENDING offer to
the requested ACCEPTED/DENIED status and fails from any other source
status.  The code contradicts it: with action ACCEPTED on a PENDING
offer the endpoint answers 200 "Offer cancelled successfully" and sets
the offer to CANCELLED, and from an ACCEPTED offer (a non-PENDING
source state) it also succeeds with CANCELLED instead of failing. -/
theorem c1_seller_decision_runs_cancel_flow :
    (updateOfferStatusBySeller c1Db 1 "ACCEPTED" (some "alice") 5).1.status = 200 ∧
    offerStatusIn (updateOfferStatusBySeller c1Db 1 "ACCEPTED" (some "alice") 5).2 1 =
      some OfferStatus.CANCELLED ∧
    offerStatusIn (updateOfferStatusBySeller c1Db 1 "ACCEPTED" (some "alice") 5).2 1 ≠
      some OfferStatus.ACCEPTED ∧
    (updateOfferStatusBySeller c1DbAccepted 1 "DENIED" (some "alice") 5).1.status = 200 ∧
    offerStatusIn (updateOfferStatusBySeller c1DbAccepted 1 "DENIED" (some "alice") 5).2 1 =
      some OfferStatus.CANCELLED := by
  decide

/-- C2: the claim states the delayed confirmation is a conditional
update that no-ops once the transaction has left PAYMENT_PENDING.  The
code refutes it: after initiate (PAYMENT_PENDING) and a buyer cancel
(CANCELLED, offer back to ACCEPTED), the callback still fires an
unconditional update by id, so the cancelled transaction ends up
PAYMENT_CONFIRMED and its offer is forced to DONE. -/
theorem c2_payment_callback_is_unconditional :
    txnStatusIn c2Db1 1 = some TxnStatus.PAYMENT_PENDING ∧
    txnStatusIn c2Db2 1 = some TxnStatus.CANCELLED ∧
    offerStatusIn c2Db2 1 = some OfferStatus.ACCEPTED ∧
    txnStatusIn c2Db3 1 = some TxnStatus.PAYMENT_CONFIRMED ∧
    offerStatusIn c2Db3 1 = some OfferStatus.DONE := by
  decide

/-- C3 counterexample: in a store with two sweep-eligible stale
transactions, a failure while transitioning the first one aborts the
run, leaving the second — still eligible — untouched in
PAYMENT_PENDING.  This refutes the claim that each record's transition
attempt is independent. -/
theorem c3_sweep_not_independent :
    isExpired c3Now (staleTxn 2 2) = true ∧
    (cleanupExpiredTransactions [1] c3Now c3Db).1 = false ∧
    txnStatusIn (cleanupExpiredTransactions [1] c3Now c3Db).2 2 =
      some TxnStatus.PAYMENT_PENDING := by
  decide

/-- C3 (amended): a failure while transitioning one record aborts the
sweep run: the error propagates to the caller, records processed before
the failure keep their writes, and neither the failing record nor any
record after it in the batch is touched — the final store is exactly
the one obtained by processing only the records before the failing
one. -/
theorem c3_sweep_failure_aborts_rest (fails : List Nat) (now : Nat)
    (pre post : List (Txn × Option Offer)) (t : Txn) (osnap : Option Offer) (db : DB)
    (hfail : t.id ∈ fails) :
    (processExpired fails now (pre ++ (t, osnap) :: post) db).1 = false ∧
    (processExpired fails now (pre ++ (t, osnap) :: post) db).2 =
      (processExpired fails now pre db).2 := by
  induction pre generalizing db with
  | nil => simp [processExpired, if_pos hfail]
  | cons p rest ih =>
    obtain ⟨x, os⟩ := p
    by_cases hx : x.id ∈ fails
    · simp [processExpired, if_pos hx]
    · cases os with
      | none => simp [processExpired, if_neg hx]
      | some osn =>
        simp only [List.cons_append, processExpired, if_neg hx]
        exact ih _

/-- C3 witness: the abort behaviour instantiated on the two-transaction
store with the first record's update failing. -/
theorem c3_sweep_failure_aborts_rest_witness :
    (staleTxn 1 1).id ∈ [1] ∧
    ((processExpired [1] c3Now
        ([] ++ (staleTxn 1 1, some (sweepOffer 1 OfferStatus.DONE)) ::
          [(staleTxn 2 2, some (sweepOffer 2 OfferStatus.DONE))]) c3Db).1 = false ∧
      (processExpired [1] c3Now
        ([] ++ (staleTxn 1 1, some (sweepOffer 1 OfferStatus.DONE)) ::
          [(staleTxn 2 2, some (sweepOffer 2 OfferStatus.DONE))]) c3Db).2 =
        (processExpired [1] c3Now [] c3Db).2) :=
  ⟨by decide,
    c3_sweep_failure_aborts_rest [1] c3Now []
      [(staleTxn 2 2, some (sweepOffer 2 OfferStatus.DONE))]
      (staleTxn 1 1) (some (sweepOffer 1 OfferStatus.DONE)) c3Db (by decide)⟩

/-- A `find?` over a per-element rewrite that never changes the
predicate's verdict commutes with the rewrite. -/
theorem find?_map_congr {α : Type} (l : List α) (h : α → α) (p : α → Bool)
    (hp : ∀ x, p (h x) = p x) :
    (l.map h).find? p = (l.find? p).map h := by
  induction l with
  | nil => rfl
  | cons x xs ih =>
    simp only [List.map_cons, List.find?, hp x]
    cases hx : p x
    · exact ih
    · rfl

/-- Effect of a by-id notification update on the owned-row lookup, for
updates that keep id and recipient. -/
theorem findNotifOwned_updateNotifById (db : DB) (nid : Nat) (u : String)
    (f : Notification → Notification)
    (hf : ∀ m, (f m).id = m.id ∧ (f m).userId = m.userId) :
    findNotifOwned (updateNotifById db nid f) nid u =
      (findNotifOwned db nid u).map (fun m => if m.id == nid then f m else m) := by
  unfold findNotifOwned updateNotifById
  refine find?_map_congr _ _ _ ?_
  intro x
  by_cases hx : (x.id == nid) = true
  · rw [if_pos hx]
    simp [(hf x).1, (hf x).2]
  · rw [if_neg hx]

/-- C9: for a notification owned by the caller, `markAsRead` succeeds
and a second call succeeds again as a no-op: the record is read
afterwards and the store of the second call equals the store of the
first.  The service-level `markAsRead` is likewise idempotent. -/
theorem c9_markAsRead_idempotent (db : DB) (nid : Nat) (u : String) (n : Notification)
    (now1 now2 : Nat) (hfind : findNotifOwned db nid u = some n) :
    (markAsRead db nid u now1).1.success = true ∧
    (markAsRead (markAsRead db nid u now1).2 nid u now2).1.success = true ∧
    (findNotifOwned (markAsRead (markAsRead db nid u now1).2 nid u now2).2 nid u).map
        (fun m => m.read) = some true ∧
    (markAsRead (markAsRead db nid u now1).2 nid u now2).2 = (markAsRead db nid u now1).2 ∧
    (∃ p, serviceMarkAsRead db nid u now1 = .ok p ∧
       serviceMarkAsRead p.2 nid u now2 = .ok p ∧ p.1.read = true) := by
  have hpred := List.find?_some hfind
  rw [Bool.and_eq_true] at hpred
  have hid : (n.id == nid) = true := hpred.1
  cases hread : n.read
  · -- unread: the first call flips the flag, the second is a no-op
    have hfind2 :
        findNotifOwned
          (updateNotifById db nid (fun m => { m with read := true, updatedDate := now1 }))
          nid u = some { n with read := true, updatedDate := now1 } := by
      rw [findNotifOwned_updateNotifById db nid u
          (fun m => { m with read := true, updatedDate := now1 }) (fun m => ⟨rfl, rfl⟩),
        hfind]
      simp only [Option.map_some']
      rw [if_pos hid]
    refine ⟨?_, ?_, ?_, ?_, ?_⟩
    · simp [markAsRead, hfind, hread]
    · simp [markAsRead, hfind, hread, hfind2]
    · simp [markAsRead, hfind, hread, hfind2]
    · simp [markAsRead, hfind, hread, hfind2]
    · refine ⟨({ n with read := true, updatedDate := now1 },
        updateNotifById db nid (fun m => { m with read := true, updatedDate := now1 })),
        ?_, ?_, rfl⟩
      · simp [serviceMarkAsRead, hfind, hread]
      · simp [serviceMarkAsRead, hfind2]
  · -- already read: both calls are no-op successes
    refine ⟨?_, ?_, ?_, ?_, ?_⟩
    · simp [markAsRead, hfind, hread]
    · simp [markAsRead, hfind, hread]
    · simp [markAsRead, hfind, hread]
    · simp [markAsRead, hfind, hread]
    · exact ⟨(n, db), by simp [serviceMarkAsRead, hfind, hread],
        by simp [serviceMarkAsRead, hfind, hread], hread⟩

/-- C9 witness: idempotence on the one-notification store of bob. -/
theorem c9_markAsRead_idempotent_witness :
    findNotifOwned c9Db 1 "bob" =
      some { id := 1, userId := "bob", ntype := "NEW_OFFER", title := "t", message := "m",
             read := false, createdDate := 0, updatedDate := 0 } ∧
    ((markAsRead c9Db 1 "bob" 5).1.success = true ∧
     (markAsRead (markAsRead c9Db 1 "bob" 5).2 1 "bob" 6).1.success = true ∧
     (findNotifOwned (markAsRead (markAsRead c9Db 1 "bob" 5).2 1 "bob" 6).2 1 "bob").map
         (fun m => m.read) = some true ∧
     (markAsRead (markAsRead c9Db 1 "bob" 5).2 1 "bob" 6).2 = (markAsRead c9Db 1 "bob" 5).2 ∧
     (∃ p, serviceMarkAsRead c9Db 1 "bob" 5 = .ok p ∧
        serviceMarkAsRead p.2 1 "bob" 6 = .ok p ∧ p.1.read = true)) :=
  ⟨by decide,
   c9_markAsRead_idempotent c9Db 1 "bob"
     { id := 1, userId := "bob", ntype := "NEW_OFFER", title := "t", message := "m",
       read := false, createdDate := 0, updatedDate := 0 } 5 6 (by decide)⟩

/-- C10: when the caller is not the recipient of the notification, both
the controller operations and the service operations answer "not
found" and leave the store untouched. -/
theorem c10_foreign_notification_not_found (db : DB) (nid : Nat) (caller : String)
    (now : Nat) (h : ∀ n ∈ db.notifications, n.id = nid → n.userId ≠ caller) :
    markAsRead db nid caller now =
      ({ status := 404, success := false, message := "Notification not found" }, db) ∧
    deleteNotification db nid caller =
      ({ status := 404, success := false, message := "Notification not found" }, db) ∧
    serviceMarkAsRead db nid caller now = .error "Notification not found" ∧
    serviceDeleteNotification db nid caller = .error "Notification not found" := by
  have hnone : findNotifOwned db nid caller = none := by
    unfold findNotifOwned
    rw [List.find?_eq_none]
    intro n hn
    simp only [Bool.and_eq_true, beq_iff_eq, not_and]
    exact fun hid => by simpa using h n hn hid
  refine ⟨?_, ?_, ?_, ?_⟩ <;>
    simp [markAsRead, deleteNotification, serviceMarkAsRead, serviceDeleteNotification, hnone]

/-- C10 witness: mallory calling on bob's notification. -/
theorem c10_foreign_notification_not_found_witness :
    (∀ n ∈ c9Db.notifications, n.id = 1 → n.userId ≠ "mallory") ∧
    (markAsRead c9Db 1 "mallory" 5 =
       ({ status := 404, success := false, message := "Notification not found" }, c9Db) ∧
     deleteNotification c9Db 1 "mallory" =
       ({ status := 404, success := false, message := "Notification not found" }, c9Db) ∧
     serviceMarkAsRead c9Db 1 "mallory" 5 = .error "Notification not found" ∧
     serviceDeleteNotification c9Db 1 "mallory" = .error "Notification not found") :=
  ⟨by decide, c10_foreign_notification_not_found c9Db 1 "mallory" 5 (by decide)⟩

/-- C8: publish returns false (not an error) when the recipient has no
live connection, and notify persists the record first: the new record
is appended to the store for any registry state, also when delivery is
skipped or every write fails. -/
theorem c8_publish_false_and_persist (reg : Registry) (seller : String) (now : Nat)
    (db : DB) (ntype title message : String) (sendSSE : Bool)
    (hdead : ∀ c ∈ connsFor reg seller, c.alive = false) :
    (sendToSeller reg seller now).1 = false ∧
    (createNotification db reg seller ntype title message sendSSE now).2.1.notifications =
      db.notifications ++ [(createNotification db reg seller ntype title message sendSSE now).1] ∧
    (createNotification db reg seller ntype title message sendSSE now).1.userId = seller := by
  refine ⟨?_, ?_, ?_⟩
  · unfold sendToSeller
    by_cases hempty : (connsFor reg seller).isEmpty
    · simp [hempty]
    · have hfil : (connsFor reg seller).filter (fun c => c.alive) = [] := by
        rw [List.filter_eq_nil_iff]
        intro c hc
        simp [hdead c hc]
      simp [hempty, hfil]
  · cases sendSSE <;> simp [createNotification, notifPersist]
  · cases sendSSE <;> simp [createNotification, notifPersist]

/-- C8 witness: a registry whose only connection for alice is dead. -/
theorem c8_publish_false_and_persist_witness :
    (∀ c ∈ connsFor c8Reg "alice", c.alive = false) ∧
    ((sendToSeller c8Reg "alice" 5).1 = false ∧
     (createNotification emptyDb c8Reg "alice" "NEW_OFFER" "t" "m" true 5).2.1.notifications =
       emptyDb.notifications ++
         [(createNotification emptyDb c8Reg "alice" "NEW_OFFER" "t" "m" true 5).1] ∧
     (createNotification emptyDb c8Reg "alice" "NEW_OFFER" "t" "m" true 5).1.userId =
       "alice") :=
  ⟨by decide, c8_publish_false_and_persist c8Reg "alice" 5 emptyDb "NEW_OFFER" "t" "m" true
    (by decide)⟩

/-- Transaction updates do not touch articles. -/
theorem findArticle_updateTxnById (db : DB) (tid : Nat) (f : Txn → Txn) (aid : Nat) :
    findArticle (updateTxnById db tid f) aid = findArticle db aid := rfl

/-- Transaction updates do not touch offers. -/
theorem findOffer_updateTxnById (db : DB) (tid : Nat) (f : Txn → Txn) (oid : Nat) :
    findOffer (updateTxnById db tid f) oid = findOffer db oid := rfl

/-- Article updates do not touch transactions. -/
theorem findTxn_updateArticleById (db : DB) (aid : Nat) (f : Article → Article) (tid : Nat) :
    findTxn (updateArticleById db aid f) tid = findTxn db tid := rfl

/-- Article updates do not touch offers. -/
theorem findOffer_updateArticleById_frame (db : DB) (aid : Nat) (f : Article → Article)
    (oid : Nat) : findOffer (updateArticleById db aid f) oid = findOffer db oid := rfl

/-- Offer updates do not touch transactions. -/
theorem findTxn_updateOfferById (db : DB) (oid : Nat) (f : Offer → Offer) (tid : Nat) :
    findTxn (updateOfferById db oid f) tid = findTxn db tid := rfl

/-- Offer updates do not touch articles. -/
theorem findArticle_updateOfferById (db : DB) (oid : Nat) (f : Offer → Offer) (aid : Nat) :
    findArticle (updateOfferById db oid f) aid = findArticle db aid := rfl

/-- Persisting a notification does not touch transactions. -/
theorem findTxn_notifPersist (db : DB) (u ty ti m : String) (now tid : Nat) :
    findTxn (notifPersist db u ty ti m now).2 tid = findTxn db tid := rfl

/-- Persisting a notification does not touch articles. -/
theorem findArticle_notifPersist (db : DB) (u ty ti m : String) (now aid : Nat) :
    findArticle (notifPersist db u ty ti m now).2 aid = findArticle db aid := rfl

/-- Persisting a notification does not touch offers. -/
theorem findOffer_notifPersist (db : DB) (u ty ti m : String) (now oid : Nat) :
    findOffer (notifPersist db u ty ti m now).2 oid = findOffer db oid := rfl

/-- Notifications of the store after a persist: the old list plus the
new record. -/
theorem notifications_notifPersist (db : DB) (u ty ti m : String) (now : Nat) :
    (notifPersist db u ty ti m now).2.notifications =
      db.notifications ++ [(notifPersist db u ty ti m now).1] := rfl

/-- The record persisted by `notifPersist` is in the resulting store and
carries the requested recipient and type. -/
theorem notifPersist_mem (db : DB) (u ty ti m : String) (now : Nat) :
    ∃ n ∈ (notifPersist db u ty ti m now).2.notifications, n.userId = u ∧ n.ntype = ty :=
  ⟨(notifPersist db u ty ti m now).1, List.mem_append_right _ (List.mem_singleton.mpr rfl),
    rfl, rfl⟩

/-- Persisting a notification keeps all previously stored records. -/
theorem notifPersist_mem_mono (db : DB) (u ty ti m : String) (now : Nat)
    (n : Notification) (h : n ∈ db.notifications) :
    n ∈ (notifPersist db u ty ti m now).2.notifications :=
  List.mem_append_left _ h

/-- Lifting an existential over the store's notifications through a
persist. -/
theorem notifPersist_mem_of_mem (db : DB) (u ty ti m : String) (now : Nat)
    {P : Notification → Prop} (h : ∃ n ∈ db.notifications, P n) :
    ∃ n ∈ (notifPersist db u ty ti m now).2.notifications, P n := by
  obtain ⟨n, hn, hp⟩ := h
  exact ⟨n, notifPersist_mem_mono _ _ _ _ _ _ _ hn, hp⟩

/-- A by-id transaction update rewrites exactly the rows with that id,
as seen through `findTxn`, provided the update keeps the id. -/
theorem findTxn_updateTxnById (db : DB) (tid tid' : Nat) (f : Txn → Txn)
    (hf : ∀ x, (f x).id = x.id) :
    findTxn (updateTxnById db tid f) tid' =
      (findTxn db tid').map (fun x => if x.id == tid then f x else x) := by
  unfold findTxn updateTxnById
  refine find?_map_congr _ _ _ ?_
  intro x
  by_cases hx : (x.id == tid) = true
  · rw [if_pos hx]
    simp [hf x]
  · rw [if_neg hx]

/-- Like `findTxn_updateTxnById`, for offers. -/
theorem findOffer_updateOfferById (db : DB) (oid oid' : Nat) (f : Offer → Offer)
    (hf : ∀ x, (f x).id = x.id) :
    findOffer (updateOfferById db oid f) oid' =
      (findOffer db oid').map (fun x => if x.id == oid then f x else x) := by
  unfold findOffer updateOfferById
  refine find?_map_congr _ _ _ ?_
  intro x
  by_cases hx : (x.id == oid) = true
  · rw [if_pos hx]
    simp [hf x]
  · rw [if_neg hx]

/-- Like `findTxn_updateTxnById`, for articles. -/
theorem findArticle_updateArticleById (db : DB) (aid aid' : Nat) (f : Article → Article)
    (hf : ∀ x, (f x).id = x.id) :
    findArticle (updateArticleById db aid f) aid' =
      (findArticle db aid').map (fun x => if x.id == aid then f x else x) := by
  unfold findArticle updateArticleById
  refine find?_map_congr _ _ _ ?_
  intro x
  by_cases hx : (x.id == aid) = true
  · rw [if_pos hx]
    simp [hf x]
  · rw [if_neg hx]

/-- Updating a transaction row that was found rewrites it by `f`. -/
theorem findTxn_update_self (db : DB) (tid : Nat) (f : Txn → Txn)
    (hf : ∀ x, (f x).id = x.id) (t : Txn) (ht : findTxn db tid = some t) :
    findTxn (updateTxnById db tid f) tid = some (f t) := by
  have hpt := List.find?_some
    (show db.transactions.find? (fun x => x.id == tid) = some t from ht)
  rw [findTxn_updateTxnById db tid tid f hf, ht]
  simp only [Option.map_some']
  rw [if_pos hpt]

/-- Updating an offer row that was found rewrites it by `f`. -/
theorem findOffer_update_self (db : DB) (oid : Nat) (f : Offer → Offer)
    (hf : ∀ x, (f x).id = x.id) (o : Offer) (ho : findOffer db oid = some o) :
    findOffer (updateOfferById db oid f) oid = some (f o) := by
  have hpo := List.find?_some
    (show db.offers.find? (fun x => x.id == oid) = some o from ho)
  rw [findOffer_updateOfferById db oid oid f hf, ho]
  simp only [Option.map_some']
  rw [if_pos hpo]

/-- Updating an article row that was found rewrites it by `f`. -/
theorem findArticle_update_self (db : DB) (aid : Nat) (f : Article → Article)
    (hf : ∀ x, (f x).id = x.id) (a : Article) (ha : findArticle db aid = some a) :
    findArticle (updateArticleById db aid f) aid = some (f a) := by
  have hpa := List.find?_some
    (show db.articles.find? (fun x => x.id == aid) = some a from ha)
  rw [findArticle_updateArticleById db aid aid f hf, ha]
  simp only [Option.map_some']
  rw [if_pos hpa]

/-- C7: `confirmDelivery` succeeds exactly for the transaction's buyer
on a SHIPPED transaction: it completes the transaction, records
delivery and payment-release timestamps and the release reference,
marks the article bought by the buyer and unpublished, and stores a
PAYMENT_RELEASED notification for the seller and a
TRANSACTION_COMPLETED one for the buyer.  A caller who is not the buyer
gets 403, a non-SHIPPED status gets 400, and in both failure cases the
store is unchanged. -/
theorem c7_confirmDelivery_spec (db : DB) (tid : Nat) (buyer : String) (t : Txn)
    (rating : Option Nat) (review : Option String) (now : Nat) (relRef : String)
    (r : Resp × DB) (ht : findTxn db tid = some t)
    (hr : r = confirmDelivery db tid (some buyer) rating review now relRef) :
    ((t.buyerUsername = buyer ∧ t.status = TxnStatus.SHIPPED) →
      ∀ a, findArticle db t.articleId = some a →
      ∀ o, findOffer db t.offerId = some o →
      r.1.status = 200 ∧ r.1.success = true ∧
      findTxn r.2 tid =
        some { t with
               status := TxnStatus.COMPLETED,
               deliveryConfirmedAt := some now,
               paymentReleasedAt := some now,
               paymentReleaseReference := some relRef,
               buyerRating := rating,
               buyerReview := review,
               updatedDate := now } ∧
      findArticle r.2 t.articleId =
        some { a with boughtBy := some buyer, published := false, updatedDate := now } ∧
      (∃ n ∈ r.2.notifications,
        n.userId = t.sellerUsername ∧ n.ntype = "PAYMENT_RELEASED") ∧
      (∃ n ∈ r.2.notifications, n.userId = buyer ∧ n.ntype = "TRANSACTION_COMPLETED")) ∧
    (t.buyerUsername ≠ buyer → r.1.status = 403 ∧ r.2 = db) ∧
    (t.buyerUsername = buyer → t.status ≠ TxnStatus.SHIPPED →
      r.1.status = 400 ∧ r.2 = db) := by
  subst hr
  refine ⟨?_, ?_, ?_⟩
  · rintro ⟨hb, hs⟩ a ha o ho
    simp only [confirmDelivery, ht,
      if_neg (show ¬t.buyerUsername ≠ buyer from fun hcon => hcon hb),
      if_neg (show ¬t.status ≠ TxnStatus.SHIPPED from fun hcon => hcon hs),
      findArticle_updateTxnById, ha, findOffer_updateArticleById_frame,
      findOffer_updateTxnById, ho]
    refine ⟨trivial, trivial, ?_, ?_, ?_, ?_⟩
    · rw [findTxn_notifPersist, findTxn_notifPersist, findTxn_updateArticleById]
      exact findTxn_update_self db tid
        (fun x =>
          { x with
            status := TxnStatus.COMPLETED,
            deliveryConfirmedAt := some now,
            paymentReleasedAt := some now,
            paymentReleaseReference := some relRef,
            buyerRating := rating,
            buyerReview := review,
            updatedDate := now }) (fun x => rfl) t ht
    · rw [findArticle_notifPersist, findArticle_notifPersist]
      exact findArticle_update_self _ t.articleId
        (fun x =>
          { x with
            boughtBy := some buyer,
            published := false,
            updatedDate := now }) (fun x => rfl) a ha
    · exact notifPersist_mem_of_mem _ _ _ _ _ _ (notifPersist_mem _ _ _ _ _ _)
    · exact notifPersist_mem _ _ _ _ _ _
  · intro hne
    simp [confirmDelivery, ht, hne]
  · intro hb hs
    simp [confirmDelivery, ht, hb, hs]


/-- C7 witness: bob confirms delivery of the shipped transaction in the
concrete store. -/
theorem c7_confirmDelivery_spec_witness :
    findTxn c7Db 1 = some c7Txn ∧
    (((c7Txn.buyerUsername = "bob" ∧ c7Txn.status = TxnStatus.SHIPPED) →
      ∀ a, findArticle c7Db c7Txn.articleId = some a →
      ∀ o, findOffer c7Db c7Txn.offerId = some o →
      (confirmDelivery c7Db 1 (some "bob") (some 5) (some "good") 99 "REL_1").1.status = 200 ∧
      (confirmDelivery c7Db 1 (some "bob") (some 5) (some "good") 99 "REL_1").1.success = true ∧
      findTxn (confirmDelivery c7Db 1 (some "bob") (some 5) (some "good") 99 "REL_1").2 1 =
        some { c7Txn with
               status := TxnStatus.COMPLETED,
               deliveryConfirmedAt := some 99,
               paymentReleasedAt := some 99,
               paymentReleaseReference := some "REL_1",
               buyerRating := some 5,
               buyerReview := some "good",
               updatedDate := 99 } ∧
      findArticle (confirmDelivery c7Db 1 (some "bob") (some 5) (some "good") 99 "REL_1").2
          c7Txn.articleId =
        some { a with boughtBy := some "bob", published := false, updatedDate := 99 } ∧
      (∃ n ∈ (confirmDelivery c7Db 1 (some "bob") (some 5) (some "good") 99 "REL_1").2.notifications,
        n.userId = c7Txn.sellerUsername ∧ n.ntype = "PAYMENT_RELEASED") ∧
      (∃ n ∈ (confirmDelivery c7Db 1 (some "bob") (some 5) (some "good") 99 "REL_1").2.notifications,
        n.userId = "bob" ∧ n.ntype = "TRANSACTION_COMPLETED")) ∧
    (c7Txn.buyerUsername ≠ "bob" →
      (confirmDelivery c7Db 1 (some "bob") (some 5) (some "good") 99 "REL_1").1.status = 403 ∧
      (confirmDelivery c7Db 1 (some "bob") (some 5) (some "good") 99 "REL_1").2 = c7Db) ∧
    (c7Txn.buyerUsername = "bob" → c7Txn.status ≠ TxnStatus.SHIPPED →
      (confirmDelivery c7Db 1 (some "bob") (some 5) (some "good") 99 "REL_1").1.status = 400 ∧
      (confirmDelivery c7Db 1 (some "bob") (some 5) (some "good") 99 "REL_1").2 = c7Db)) :=
  ⟨by decide,
   c7_confirmDelivery_spec c7Db 1 "bob" c7Txn (some 5) (some "good") 99 "REL_1"
     (confirmDelivery c7Db 1 (some "bob") (some 5) (some "good") 99 "REL_1")
     (by decide) rfl⟩

/-- When `find?` misses, `filter` is empty (same predicate). -/
theorem filter_eq_nil_of_find?_eq_none {α : Type} {l : List α} {p : α → Bool}
    (h : l.find? p = none) : l.filter p = [] :=
  List.filter_eq_nil_iff.mpr (List.find?_eq_none.mp h)

/-- Case analysis of `initiateTransaction`: either every guard passed
and exactly the new row was appended, or the call failed with an error
response and the store is unchanged. -/
theorem initiate_result (db : DB) (offerId : Nat) (sa : ShippingAddress)
    (buyer : String) (now : Nat) (payRef : String) :
    (∃ offer, findOffer db offerId = some offer ∧ offer.username = buyer ∧
      offer.status = OfferStatus.ACCEPTED ∧ findTxnByOffer db offerId = none ∧
      initiateTransaction db (some offerId) (some sa) (some buyer) now payRef =
        ({ status := 201, success := true,
           message := "Transaction initiated successfully. Payment is being processed." },
         { db with transactions :=
             db.transactions ++ [mkTransaction db offerId offer buyer now payRef sa] })) ∨
    ((initiateTransaction db (some offerId) (some sa) (some buyer) now payRef).1.success
        = false ∧
      (initiateTransaction db (some offerId) (some sa) (some buyer) now payRef).1.status
        ≠ 201 ∧
      (initiateTransaction db (some offerId) (some sa) (some buyer) now payRef).2 = db) := by
  by_cases h1 : isBlank sa.fullName = true
  · right
    simp [initiateTransaction, h1]
  · by_cases h2 : isBlank sa.street = true
    · right
      simp [initiateTransaction, h1, h2]
    · by_cases h3 : isBlank sa.city = true
      · right
        simp [initiateTransaction, h1, h2, h3]
      · by_cases h4 : isBlank sa.postalCode = true
        · right
          simp [initiateTransaction, h1, h2, h3, h4]
        · by_cases h5 : isBlank sa.country = true
          · right
            simp [initiateTransaction, h1, h2, h3, h4, h5]
          · cases hfo : findOffer db offerId with
            | none =>
              right
              simp [initiateTransaction, h1, h2, h3, h4, h5, hfo]
            | some offer =>
              by_cases hu : offer.username = buyer
              · by_cases hst : offer.status = OfferStatus.ACCEPTED
                · cases hdup : findTxnByOffer db offerId with
                  | some t0 =>
                    right
                    simp [initiateTransaction, h1, h2, h3, h4, h5, hfo, hu, hst, hdup]
                  | none =>
                    left
                    exact ⟨offer, rfl, hu, hst, rfl,
                      by simp [initiateTransaction, h1, h2, h3, h4, h5, hfo, hu, hst, hdup]⟩
                · right
                  simp [initiateTransaction, h1, h2, h3, h4, h5, hfo, hu, hst]
              · right
                simp [initiateTransaction, h1, h2, h3, h4, h5, hfo, hu]

/-- C5: a transaction row is created only from an ACCEPTED offer that
has no transaction yet, and exactly one row is appended; a non-ACCEPTED
offer makes the call fail without touching the store; a duplicate
initiate on an offer that already has a transaction answers the
Conflict error 'Transaction already exists for this offer' and creates
nothing; and the at-most-one-transaction-per-offer invariant is
preserved by every call. -/
theorem c5_initiate_requires_accepted_and_unique (db : DB) (offerId : Nat)
    (sa : ShippingAddress) (buyer : String) (now : Nat) (payRef : String)
    (r : Resp × DB)
    (hr : r = initiateTransaction db (some offerId) (some sa) (some buyer) now payRef) :
    (r.1.status = 201 →
      offerStatusIn db offerId = some OfferStatus.ACCEPTED ∧
      txnsForOffer db offerId = [] ∧
      (∃ offer, findOffer db offerId = some offer ∧
        txnsForOffer r.2 offerId = [mkTransaction db offerId offer buyer now payRef sa])) ∧
    (∀ o, findOffer db offerId = some o → o.status ≠ OfferStatus.ACCEPTED →
      r.1.success = false ∧ r.2 = db) ∧
    (∀ o, findOffer db offerId = some o → o.username = buyer →
      o.status = OfferStatus.ACCEPTED →
      isBlank sa.fullName = false → isBlank sa.street = false →
      isBlank sa.city = false → isBlank sa.postalCode = false →
      isBlank sa.country = false →
      ∀ t0, findTxnByOffer db offerId = some t0 →
      r.1 = { status := 400, success := false,
              message := "Transaction already exists for this offer" } ∧ r.2 = db) ∧
    (atMostOneTxnPerOffer db → atMostOneTxnPerOffer r.2) := by
  subst hr
  refine ⟨?_, ?_, ?_, ?_⟩
  · intro h201
    rcases initiate_result db offerId sa buyer now payRef with
      ⟨offer, hfo, hu, hst, hdup, heq⟩ | ⟨_, hne, _⟩
    · have hempty : db.transactions.filter (fun t => t.offerId == offerId) = [] :=
        filter_eq_nil_of_find?_eq_none hdup
      refine ⟨by simp [offerStatusIn, hfo, hst], hempty, offer, hfo, ?_⟩
      rw [heq]
      show ((db.transactions ++ [mkTransaction db offerId offer buyer now payRef sa]).filter
        (fun t => t.offerId == offerId)) = _
      rw [List.filter_append, hempty]
      simp [mkTransaction]
    · exact absurd h201 hne
  · intro o hfo' hnst
    rcases initiate_result db offerId sa buyer now payRef with
      ⟨offer, hfo, hu, hst, hdup, heq⟩ | ⟨hfail, _, hunch⟩
    · rw [hfo] at hfo'
      cases hfo'
      exact absurd hst hnst
    · exact ⟨hfail, hunch⟩
  · intro o hfo hu hst h1 h2 h3 h4 h5 t0 hdup
    constructor <;>
      simp [initiateTransaction, hfo, hu, hst, h1, h2, h3, h4, h5, hdup]
  · intro hinv
    rcases initiate_result db offerId sa buyer now payRef with
      ⟨offer, hfo, hu, hst, hdup, heq⟩ | ⟨_, _, hunch⟩
    · intro oid
      rw [heq]
      show ((db.transactions ++ [mkTransaction db offerId offer buyer now payRef sa]).filter
        (fun t => t.offerId == oid)).length ≤ 1
      rw [List.filter_append]
      by_cases hoid : offerId = oid
      · subst hoid
        rw [filter_eq_nil_of_find?_eq_none hdup]
        simp [mkTransaction]
      · have hnt : (([mkTransaction db offerId offer buyer now payRef sa]).filter
            (fun t => t.offerId == oid)) = [] := by
          simp [mkTransaction, hoid]
        rw [hnt, List.append_nil]
        exact hinv oid
    · rw [hunch]
      exact hinv

/-- C5 witness: first initiate on the ACCEPTED offer store. -/
theorem c5_initiate_requires_accepted_and_unique_witness :
    ((initiateTransaction c2Db0 (some 1) (some c2Shipping) (some "bob") 100 "PAY_1").1.status
        = 201 →
      offerStatusIn c2Db0 1 = some OfferStatus.ACCEPTED ∧
      txnsForOffer c2Db0 1 = [] ∧
      (∃ offer, findOffer c2Db0 1 = some offer ∧
        txnsForOffer
          (initiateTransaction c2Db0 (some 1) (some c2Shipping) (some "bob") 100 "PAY_1").2 1 =
          [mkTransaction c2Db0 1 offer "bob" 100 "PAY_1" c2Shipping])) ∧
    (∀ o, findOffer c2Db0 1 = some o → o.status ≠ OfferStatus.ACCEPTED →
      (initiateTransaction c2Db0 (some 1) (some c2Shipping) (some "bob") 100 "PAY_1").1.success
          = false ∧
      (initiateTransaction c2Db0 (some 1) (some c2Shipping) (some "bob") 100 "PAY_1").2
          = c2Db0) ∧
    (∀ o, findOffer c2Db0 1 = some o → o.username = "bob" →
      o.status = OfferStatus.ACCEPTED →
      isBlank c2Shipping.fullName = false → isBlank c2Shipping.street = false →
      isBlank c2Shipping.city = false → isBlank c2Shipping.postalCode = false →
      isBlank c2Shipping.country = false →
      ∀ t0, findTxnByOffer c2Db0 1 = some t0 →
      (initiateTransaction c2Db0 (some 1) (some c2Shipping) (some "bob") 100 "PAY_1").1 =
        { status := 400, success := false,
          message := "Transaction already exists for this offer" } ∧
      (initiateTransaction c2Db0 (some 1) (some c2Shipping) (some "bob") 100 "PAY_1").2
          = c2Db0) ∧
    (atMostOneTxnPerOffer c2Db0 →
      atMostOneTxnPerOffer
        (initiateTransaction c2Db0 (some 1) (some c2Shipping) (some "bob") 100 "PAY_1").2) :=
  c5_initiate_requires_accepted_and_unique c2Db0 1 c2Shipping "bob" 100 "PAY_1"
    (initiateTransaction c2Db0 (some 1) (some c2Shipping) (some "bob") 100 "PAY_1") rfl

/-- A `filter` over a per-element rewrite that never changes the
predicate's verdict commutes with the rewrite. -/
theorem filter_map_congr {α : Type} (l : List α) (h : α → α) (p : α → Bool)
    (hp : ∀ x, p (h x) = p x) :
    (l.map h).filter p = (l.filter p).map h := by
  induction l with
  | nil => rfl
  | cons x xs ih =>
    simp only [List.map_cons, List.filter, hp x]
    cases hx : p x
    · exact ih
    · rw [List.map_cons, ih]

/-- A filtered list of length at most one whose predicate has a
`find?` hit is exactly that hit. -/
theorem filter_singleton_of_find? {α : Type} (l : List α) (p : α → Bool) (x : α)
    (hfind : l.find? p = some x) (hlen : (l.filter p).length ≤ 1) : l.filter p = [x] := by
  have hmem : x ∈ l := List.mem_of_find?_eq_some hfind
  have hpx := List.find?_some hfind
  have hxf : x ∈ l.filter p := List.mem_filter.mpr ⟨hmem, hpx⟩
  cases hl : l.filter p with
  | nil =>
    rw [hl] at hxf
    cases hxf
  | cons y ys =>
    cases ys with
    | nil =>
      rw [hl] at hxf
      rw [List.mem_singleton] at hxf
      rw [hxf]
    | cons z zs =>
      rw [hl] at hlen
      simp only [List.length_cons] at hlen
      omega

/-- The offer-notification helper only appends notifications; the offer
table is untouched. -/
theorem offers_createOfferNotification (db : DB) (o : Offer) (ty : String) (now : Nat) :
    (createOfferNotification db o ty now).offers = db.offers := by
  unfold createOfferNotification
  cases h : offerNotifTarget o ty with
  | none => rfl
  | some x =>
    obtain ⟨u1, t1, m1⟩ := x
    rfl

/-- Case analysis of `createOffer`: a fresh pair appends exactly one
PENDING row (201), an existing pair rewrites that row's price and
status (200), and any guard failure leaves the store unchanged. -/
theorem createOffer_result (db : DB) (aid : Nat) (p : Int) (u : String) (now : Nat) :
    (∃ article, findArticle db aid = some article ∧ findOfferByPair db aid u = none ∧
      (createOffer db (some aid) (some p) (some u) now).1.status = 201 ∧
      (createOffer db (some aid) (some p) (some u) now).2.offers =
        db.offers ++ [mkOffer db aid article p u now]) ∨
    (∃ existing, findOfferByPair db aid u = some existing ∧
      (createOffer db (some aid) (some p) (some u) now).1.status = 200 ∧
      (createOffer db (some aid) (some p) (some u) now).2.offers =
        db.offers.map (fun o => if o.id == existing.id then
          { o with price := p, status := OfferStatus.PENDING, updatedDate := now }
        else o)) ∨
    ((createOffer db (some aid) (some p) (some u) now).1.status ≠ 200 ∧
      (createOffer db (some aid) (some p) (some u) now).1.status ≠ 201 ∧
      (createOffer db (some aid) (some p) (some u) now).2 = db) := by
  by_cases hz : p = 0
  · right; right
    simp [createOffer, hz]
  · by_cases hneg : p ≤ 0
    · right; right
      simp [createOffer, hz, hneg]
    · cases hfa : findArticle db aid with
      | none =>
        right; right
        simp [createOffer, hz, hneg, hfa]
      | some article =>
        cases hpub : article.published with
        | false =>
          right; right
          simp [createOffer, hz, hneg, hfa, hpub]
        | true =>
          by_cases howner : article.owner = u
          · right; right
            simp [createOffer, hz, hneg, hfa, hpub, howner]
          · cases hfp : findOfferByPair db aid u with
            | some existing =>
              right; left
              refine ⟨existing, rfl, ?_, ?_⟩ <;>
                simp [createOffer, hz, hneg, hfa, hpub, howner, hfp,
                  offers_createOfferNotification, updateOfferById]
            | none =>
              left
              refine ⟨article, rfl, rfl, ?_, ?_⟩ <;>
                simp [createOffer, hz, hneg, hfa, hpub, howner, hfp,
                  offers_createOfferNotification]

/-- C4: the at-most-one-offer-per-(article, buyer) invariant is
preserved by submit; a 201 creation happens only when the pair had no
row and leaves exactly one new PENDING row for it; a 200 re-offer
rewrites the existing row in place with the new price and status reset
to PENDING, whatever its prior status; any failure leaves the store
unchanged. -/
theorem c4_offer_pair_uniqueness (db : DB) (aid : Nat) (p : Int) (u : String) (now : Nat)
    (r : Resp × DB) (hr : r = createOffer db (some aid) (some p) (some u) now)
    (hinv : atMostOneOfferPerPair db) :
    atMostOneOfferPerPair r.2 ∧
    (r.1.status = 201 →
      offersForPair db aid u = [] ∧
      ∃ article, findArticle db aid = some article ∧
        offersForPair r.2 aid u = [mkOffer db aid article p u now]) ∧
    (r.1.status = 200 →
      ∃ existing, offersForPair db aid u = [existing] ∧
        offersForPair r.2 aid u =
          [{ existing with
             price := p, status := OfferStatus.PENDING, updatedDate := now }]) ∧
    (r.1.status ≠ 200 → r.1.status ≠ 201 → r.2 = db) := by
  subst hr
  refine ⟨?_, ?_, ?_, ?_⟩
  · intro a' b'
    rcases createOffer_result db aid p u now with
      ⟨article, hfa, hfp, h201, hoff⟩ | ⟨existing, hfp, h200, hoff⟩ | ⟨_, _, hunch⟩
    · show ((createOffer db (some aid) (some p) (some u) now).2.offers.filter _).length ≤ 1
      rw [hoff, List.filter_append]
      by_cases ha : aid = a'
      · by_cases hb : u = b'
        · subst ha
          subst hb
          rw [filter_eq_nil_of_find?_eq_none hfp]
          simp [mkOffer]
        · have : (([mkOffer db aid article p u now]).filter
              (fun o => o.articleId == a' && o.username == b')) = [] := by
            simp [mkOffer, hb]
          rw [this, List.append_nil]
          exact hinv a' b'
      · have : (([mkOffer db aid article p u now]).filter
            (fun o => o.articleId == a' && o.username == b')) = [] := by
          simp [mkOffer, ha]
        rw [this, List.append_nil]
        exact hinv a' b'
    · show ((createOffer db (some aid) (some p) (some u) now).2.offers.filter _).length ≤ 1
      have hmapfil := filter_map_congr db.offers
        (fun o => if o.id == existing.id then
          { o with price := p, status := OfferStatus.PENDING, updatedDate := now } else o)
        (fun o => o.articleId == a' && o.username == b')
        (by
          intro x
          by_cases hx : (x.id == existing.id) = true
          · simp only [if_pos hx]
          · simp only [if_neg hx])
      rw [hoff, hmapfil, List.length_map]
      exact hinv a' b'
    · rw [hunch]
      exact hinv a' b'
  · intro h201
    rcases createOffer_result db aid p u now with
      ⟨article, hfa, hfp, _, hoff⟩ | ⟨existing, hfp, h200, hoff⟩ | ⟨_, hne, _⟩
    · have hempty : db.offers.filter (fun o => o.articleId == aid && o.username == u) = [] :=
        filter_eq_nil_of_find?_eq_none hfp
      refine ⟨hempty, article, hfa, ?_⟩
      show ((createOffer db (some aid) (some p) (some u) now).2.offers.filter _) = _
      rw [hoff, List.filter_append, hempty]
      simp [mkOffer]
    · rw [h200] at h201
      cases h201
    · exact absurd h201 hne
  · intro h200
    rcases createOffer_result db aid p u now with
      ⟨article, hfa, hfp, h201, hoff⟩ | ⟨existing, hfp, _, hoff⟩ | ⟨hne, _, _⟩
    · rw [h201] at h200
      cases h200
    · have hone : db.offers.filter (fun o => o.articleId == aid && o.username == u) =
          [existing] :=
        filter_singleton_of_find? _ _ _ hfp (hinv aid u)
      have hpx := List.find?_some hfp
      rw [Bool.and_eq_true] at hpx
      refine ⟨existing, hone, ?_⟩
      show ((createOffer db (some aid) (some p) (some u) now).2.offers.filter _) = _
      have hmapfil := filter_map_congr db.offers
        (fun o => if o.id == existing.id then
          { o with price := p, status := OfferStatus.PENDING, updatedDate := now } else o)
        (fun o => o.articleId == aid && o.username == u)
        (by
          intro x
          by_cases hx : (x.id == existing.id) = true
          · simp only [if_pos hx]
          · simp only [if_neg hx])
      rw [hoff, hmapfil, hone]
      simp
    · exact absurd h200 hne
  · intro h200 h201
    rcases createOffer_result db aid p u now with
      ⟨article, hfa, hfp, hs, hoff⟩ | ⟨existing, hfp, hs, hoff⟩ | ⟨_, _, hunch⟩
    · exact absurd hs h201
    · exact absurd hs h200
    · exact hunch


/-- C4 witness: bob re-offers on the article where he already has a
PENDING offer; the call collapses onto the same row. -/
theorem c4_offer_pair_uniqueness_witness :
    atMostOneOfferPerPair c1Db ∧
    (atMostOneOfferPerPair (createOffer c1Db (some 1) (some 60) (some "bob") 7).2 ∧
     ((createOffer c1Db (some 1) (some 60) (some "bob") 7).1.status = 201 →
       offersForPair c1Db 1 "bob" = [] ∧
       ∃ article, findArticle c1Db 1 = some article ∧
         offersForPair (createOffer c1Db (some 1) (some 60) (some "bob") 7).2 1 "bob" =
           [mkOffer c1Db 1 article 60 "bob" 7]) ∧
     ((createOffer c1Db (some 1) (some 60) (some "bob") 7).1.status = 200 →
       ∃ existing, offersForPair c1Db 1 "bob" = [existing] ∧
         offersForPair (createOffer c1Db (some 1) (some 60) (some "bob") 7).2 1 "bob" =
           [{ existing with
              price := 60, status := OfferStatus.PENDING, updatedDate := 7 }]) ∧
     ((createOffer c1Db (some 1) (some 60) (some "bob") 7).1.status ≠ 200 →
       (createOffer c1Db (some 1) (some 60) (some "bob") 7).1.status ≠ 201 →
       (createOffer c1Db (some 1) (some 60) (some "bob") 7).2 = c1Db)) :=
  have hinv : atMostOneOfferPerPair c1Db :=
    fun _ _ => le_trans (List.length_filter_le _ _) (by decide)
  ⟨hinv, c4_offer_pair_uniqueness c1Db 1 60 "bob" 7
    (createOffer c1Db (some 1) (some 60) (some "bob") 7) rfl hinv⟩

/-- Transaction updates do not touch notifications. -/
theorem notifications_updateTxnById (db : DB) (tid : Nat) (f : Txn → Txn) :
    (updateTxnById db tid f).notifications = db.notifications := rfl

/-- Offer updates do not touch notifications. -/
theorem notifications_updateOfferById (db : DB) (oid : Nat) (f : Offer → Offer) :
    (updateOfferById db oid f).notifications = db.notifications := rfl

/-- Updating a transaction row does not change the lookup of a
different id. -/
theorem findTxn_update_other (db : DB) (tid tid' : Nat) (f : Txn → Txn)
    (hf : ∀ x, (f x).id = x.id) (hne : tid' ≠ tid) :
    findTxn (updateTxnById db tid f) tid' = findTxn db tid' := by
  rw [findTxn_updateTxnById db tid tid' f hf]
  cases hft : findTxn db tid' with
  | none => rfl
  | some x =>
    have hx := List.find?_some
      (show db.transactions.find? (fun y => y.id == tid') = some x from hft)
    have h1 : x.id = tid' := by simpa using hx
    simp only [Option.map_some']
    rw [if_neg (by rw [h1]; simpa using hne)]

/-- Updating an offer row does not change the lookup of a different
id. -/
theorem findOffer_update_other (db : DB) (oid oid' : Nat) (f : Offer → Offer)
    (hf : ∀ x, (f x).id = x.id) (hne : oid' ≠ oid) :
    findOffer (updateOfferById db oid f) oid' = findOffer db oid' := by
  rw [findOffer_updateOfferById db oid oid' f hf]
  cases hfo : findOffer db oid' with
  | none => rfl
  | some x =>
    have hx := List.find?_some
      (show db.offers.find? (fun y => y.id == oid') = some x from hfo)
    have h1 : x.id = oid' := by simpa using hx
    simp only [Option.map_some']
    rw [if_neg (by rw [h1]; simpa using hne)]

/-- In a list whose keys are distinct, `find?` by the key of a member
returns exactly that member. -/
theorem find?_key_of_nodup {α : Type} (key : α → Nat) (l : List α)
    (hnd : (l.map key).Nodup) (x : α) (hx : x ∈ l) :
    l.find? (fun y => key y == key x) = some x := by
  induction l with
  | nil => cases hx
  | cons a as ih =>
    rw [List.map_cons, List.nodup_cons] at hnd
    rcases List.mem_cons.mp hx with rfl | hmem
    · exact List.find?_cons_of_pos _ (by simp)
    · have hne : (key a == key x) = false := by
        rw [beq_eq_false_iff_ne]
        intro he
        exact hnd.1 (he ▸ List.mem_map_of_mem key hmem)
      rw [List.find?_cons_of_neg _ (by simp [hne]), ih hnd.2 hmem]

/-- With distinct transaction ids, looking up a member row by its id
finds exactly that row. -/
theorem findTxn_of_mem_nodup (db : DB) (t : Txn) (h : t ∈ db.transactions)
    (hnd : (db.transactions.map Txn.id).Nodup) : findTxn db t.id = some t :=
  find?_key_of_nodup Txn.id db.transactions hnd t h

/-- A sweep with no failing update and no missing offer snapshot runs
to completion. -/
theorem processExpired_ok (now : Nat) :
    ∀ (l : List (Txn × Option Offer)) (db : DB),
      (∀ p ∈ l, p.2.isSome = true) → (processExpired [] now l db).1 = true := by
  intro l
  induction l with
  | nil => intro db _; rfl
  | cons p rest ih =>
    intro db h
    obtain ⟨t, osnap⟩ := p
    cases osnap with
    | none =>
      have := h (t, none) (List.mem_cons_self _ _)
      simp at this
    | some osn =>
      simp only [processExpired]
      rw [if_neg (List.not_mem_nil t.id)]
      exact ih _ (fun q hq => h q (List.mem_cons_of_mem _ hq))

/-- The sweep loop leaves transactions whose id is not in the batch
untouched. -/
theorem processExpired_txn_frame (fails : List Nat) (now tid : Nat) :
    ∀ (l : List (Txn × Option Offer)) (db : DB),
      (∀ p ∈ l, p.1.id ≠ tid) →
      findTxn (processExpired fails now l db).2 tid = findTxn db tid := by
  intro l
  induction l with
  | nil => intro db _; rfl
  | cons p rest ih =>
    intro db h
    obtain ⟨t, osnap⟩ := p
    have hne : tid ≠ t.id := fun he => h (t, osnap) (List.mem_cons_self _ _) he.symm
    by_cases hfl : t.id ∈ fails
    · simp [processExpired, if_pos hfl]
    · cases osnap with
      | none =>
        simp only [processExpired, if_neg hfl]
        exact findTxn_update_other db t.id tid _ (fun x => rfl) hne
      | some osn =>
        simp only [processExpired, if_neg hfl]
        rw [ih _ (fun q hq => h q (List.mem_cons_of_mem _ hq))]
        rw [findTxn_notifPersist, findTxn_notifPersist]
        by_cases hdone : osn.status = OfferStatus.DONE
        · rw [if_pos hdone, findTxn_updateOfferById]
          exact findTxn_update_other db t.id tid _ (fun x => rfl) hne
        · rw [if_neg hdone]
          exact findTxn_update_other db t.id tid _ (fun x => rfl) hne

/-- The sweep loop leaves offers not referenced by the batch
untouched. -/
theorem processExpired_offer_frame (fails : List Nat) (now oid : Nat) :
    ∀ (l : List (Txn × Option Offer)) (db : DB),
      (∀ p ∈ l, p.1.offerId ≠ oid) →
      findOffer (processExpired fails now l db).2 oid = findOffer db oid := by
  intro l
  induction l with
  | nil => intro db _; rfl
  | cons p rest ih =>
    intro db h
    obtain ⟨t, osnap⟩ := p
    have hne : oid ≠ t.offerId := fun he => h (t, osnap) (List.mem_cons_self _ _) he.symm
    by_cases hfl : t.id ∈ fails
    · simp [processExpired, if_pos hfl]
    · cases osnap with
      | none =>
        simp only [processExpired, if_neg hfl]
        exact findOffer_updateTxnById db t.id _ oid
      | some osn =>
        simp only [processExpired, if_neg hfl]
        rw [ih _ (fun q hq => h q (List.mem_cons_of_mem _ hq))]
        rw [findOffer_notifPersist, findOffer_notifPersist]
        by_cases hdone : osn.status = OfferStatus.DONE
        · rw [if_pos hdone]
          rw [findOffer_update_other _ t.offerId oid
            (fun o => { o with status := OfferStatus.ACCEPTED, updatedDate := now })
            (fun x => rfl) hne]
          exact findOffer_updateTxnById db t.id _ oid
        · rw [if_neg hdone]
          exact findOffer_updateTxnById db t.id _ oid

/-- The sweep loop never removes notifications. -/
theorem processExpired_notif_mono (fails : List Nat) (now : Nat) :
    ∀ (l : List (Txn × Option Offer)) (db : DB) (n : Notification),
      n ∈ db.notifications → n ∈ (processExpired fails now l db).2.notifications := by
  intro l
  induction l with
  | nil => intro db n h; exact h
  | cons p rest ih =>
    intro db n h
    obtain ⟨t, osnap⟩ := p
    by_cases hfl : t.id ∈ fails
    · simp only [processExpired, if_pos hfl]
      exact h
    · cases osnap with
      | none =>
        simp only [processExpired, if_neg hfl]
        exact h
      | some osn =>
        simp only [processExpired, if_neg hfl]
        refine ih _ n ?_
        refine notifPersist_mem_mono _ _ _ _ _ _ n ?_
        refine notifPersist_mem_mono _ _ _ _ _ _ n ?_
        by_cases hdone : osn.status = OfferStatus.DONE
        · rw [if_pos hdone, notifications_updateOfferById, notifications_updateTxnById]
          exact h
        · rw [if_neg hdone, notifications_updateTxnById]
          exact h

/-- Existential version of `processExpired_notif_mono`. -/
theorem processExpired_notif_mono_ex (fails : List Nat) (now : Nat)
    (l : List (Txn × Option Offer)) (db : DB) {P : Notification → Prop}
    (h : ∃ n ∈ db.notifications, P n) :
    ∃ n ∈ (processExpired fails now l db).2.notifications, P n := by
  obtain ⟨n, hn, hp⟩ := h
  exact ⟨n, processExpired_notif_mono fails now l db n hn, hp⟩

/-- The sweep loop over an initial segment composes with the rest of
the batch. -/
theorem processExpired_append (fails : List Nat) (now : Nat) :
    ∀ (l1 l2 : List (Txn × Option Offer)) (db : DB),
      processExpired fails now (l1 ++ l2) db =
        (if (processExpired fails now l1 db).1 = true
         then processExpired fails now l2 (processExpired fails now l1 db).2
         else processExpired fails now l1 db) := by
  intro l1
  induction l1 with
  | nil => intro l2 db; simp [processExpired]
  | cons p rest ih =>
    intro l2 db
    obtain ⟨t, osnap⟩ := p
    by_cases hfl : t.id ∈ fails
    · simp [processExpired, if_pos hfl]
    · cases osnap with
      | none => simp [processExpired, if_neg hfl]
      | some osn =>
        simp only [List.cons_append, processExpired, if_neg hfl]
        exact ih _ _

/-- C6: under distinct transaction ids, distinct offers among the
expired rows, and present offer rows, the expiry sweep completes; every
PAYMENT_PENDING transaction older than 24 hours is set to CANCELLED,
its offer is reverted to ACCEPTED exactly when that offer was DONE and
left untouched otherwise, and TRANSACTION_CANCELLED notifications are
stored for its buyer and its seller; every other transaction is left
untouched. -/
theorem c6_expiry_sweep_spec (db : DB) (now : Nat) (r : Bool × DB)
    (hr : r = cleanupExpiredTransactions [] now db)
    (hids : (db.transactions.map Txn.id).Nodup)
    (hoffs : ((db.transactions.filter (isExpired now)).map Txn.offerId).Nodup)
    (hfound : ∀ t ∈ db.transactions, isExpired now t = true →
      (findOffer db t.offerId).isSome = true) :
    r.1 = true ∧
    (∀ t ∈ db.transactions, isExpired now t = true →
      txnStatusIn r.2 t.id = some TxnStatus.CANCELLED ∧
      (∀ o, findOffer db t.offerId = some o →
        (o.status = OfferStatus.DONE →
          offerStatusIn r.2 t.offerId = some OfferStatus.ACCEPTED) ∧
        (o.status ≠ OfferStatus.DONE → findOffer r.2 t.offerId = some o)) ∧
      (∃ n ∈ r.2.notifications,
        n.userId = t.buyerUsername ∧ n.ntype = "TRANSACTION_CANCELLED") ∧
      (∃ n ∈ r.2.notifications,
        n.userId = t.sellerUsername ∧ n.ntype = "TRANSACTION_CANCELLED")) ∧
    (∀ t ∈ db.transactions, isExpired now t = false → findTxn r.2 t.id = some t) := by
  subst hr
  have hcleanup : cleanupExpiredTransactions [] now db =
      processExpired [] now (expiredSnapshot db now) db := rfl
  have hsnapisSome : ∀ p ∈ expiredSnapshot db now, p.2.isSome = true := by
    intro p hp
    rw [expiredSnapshot] at hp
    obtain ⟨t, htmem, rfl⟩ := List.mem_map.mp hp
    have hm := List.mem_filter.mp htmem
    exact hfound t hm.1 hm.2
  refine ⟨?_, ?_, ?_⟩
  · rw [hcleanup]
    exact processExpired_ok now _ db hsnapisSome
  · intro t ht hexp
    have htf : t ∈ db.transactions.filter (isExpired now) := List.mem_filter.mpr ⟨ht, hexp⟩
    obtain ⟨l1, l2, hsplit⟩ := List.append_of_mem htf
    obtain ⟨o, ho⟩ := Option.isSome_iff_exists.mp (hfound t ht hexp)
    have hsnapeq : expiredSnapshot db now =
        l1.map (fun u => (u, findOffer db u.offerId)) ++
          (t, findOffer db t.offerId) ::
            l2.map (fun u => (u, findOffer db u.offerId)) := by
      rw [expiredSnapshot, hsplit, List.map_append, List.map_cons]
    have hfid : ((db.transactions.filter (isExpired now)).map Txn.id).Nodup :=
      List.Nodup.sublist ((List.filter_sublist _).map Txn.id) hids
    rw [hsplit, List.map_append, List.map_cons] at hfid hoffs
    have hdisj := List.disjoint_of_nodup_append hfid
    have hid1 : ∀ u ∈ l1, u.id ≠ t.id := by
      intro u h1 he
      exact hdisj (List.mem_map_of_mem Txn.id h1) (by rw [he]; exact List.mem_cons_self _ _)
    have hnd2 := List.Nodup.of_append_right hfid
    rw [List.nodup_cons] at hnd2
    have hid2 : ∀ u ∈ l2, u.id ≠ t.id := by
      intro u h2 he
      exact hnd2.1 (he ▸ List.mem_map_of_mem Txn.id h2)
    have hodisj := List.disjoint_of_nodup_append hoffs
    have hoff1 : ∀ u ∈ l1, u.offerId ≠ t.offerId := by
      intro u h1 he
      exact hodisj (List.mem_map_of_mem Txn.offerId h1)
        (by rw [he]; exact List.mem_cons_self _ _)
    have hond2 := List.Nodup.of_append_right hoffs
    rw [List.nodup_cons] at hond2
    have hoff2 : ∀ u ∈ l2, u.offerId ≠ t.offerId := by
      intro u h2 he
      exact hond2.1 (he ▸ List.mem_map_of_mem Txn.offerId h2)
    have hok1 : (processExpired [] now
        (l1.map (fun u => (u, findOffer db u.offerId))) db).1 = true :=
      processExpired_ok now _ db
        (fun p hp => hsnapisSome p (by rw [hsnapeq]; exact List.mem_append_left _ hp))
    have hTA : findTxn (processExpired [] now
        (l1.map (fun u => (u, findOffer db u.offerId))) db).2 t.id = findTxn db t.id :=
      processExpired_txn_frame [] now t.id _ db
        (by
          intro p hp
          obtain ⟨u, hu, rfl⟩ := List.mem_map.mp hp
          exact hid1 u hu)
    have hOA : findOffer (processExpired [] now
        (l1.map (fun u => (u, findOffer db u.offerId))) db).2 t.offerId =
        findOffer db t.offerId :=
      processExpired_offer_frame [] now t.offerId _ db
        (by
          intro p hp
          obtain ⟨u, hu, rfl⟩ := List.mem_map.mp hp
          exact hoff1 u hu)
    have hfind : findTxn db t.id = some t := findTxn_of_mem_nodup db t ht hids
    rw [hcleanup, hsnapeq, processExpired_append, if_pos hok1, ho]
    simp only [processExpired]
    rw [if_neg (List.not_mem_nil t.id)]
    have hl2frameT := fun dbx =>
      processExpired_txn_frame [] now t.id
        (l2.map (fun u => (u, findOffer db u.offerId))) dbx
        (by
          intro p hp
          obtain ⟨u, hu, rfl⟩ := List.mem_map.mp hp
          exact hid2 u hu)
    have hl2frameO := fun dbx =>
      processExpired_offer_frame [] now t.offerId
        (l2.map (fun u => (u, findOffer db u.offerId))) dbx
        (by
          intro p hp
          obtain ⟨u, hu, rfl⟩ := List.mem_map.mp hp
          exact hoff2 u hu)
    refine ⟨?_, ?_, ?_, ?_⟩
    · rw [txnStatusIn, hl2frameT, findTxn_notifPersist, findTxn_notifPersist]
      by_cases hdone : o.status = OfferStatus.DONE
      · rw [if_pos hdone, findTxn_updateOfferById]
        rw [findTxn_update_self _ t.id
          (fun x => { x with status := TxnStatus.CANCELLED, updatedDate := now })
          (fun x => rfl) t (hTA.trans hfind)]
        rfl
      · rw [if_neg hdone]
        rw [findTxn_update_self _ t.id
          (fun x => { x with status := TxnStatus.CANCELLED, updatedDate := now })
          (fun x => rfl) t (hTA.trans hfind)]
        rfl
    · intro o' ho'
      injection ho' with he
      subst he
      have hO1 : findOffer (updateTxnById (processExpired [] now
          (l1.map (fun u => (u, findOffer db u.offerId))) db).2 t.id
          (fun x => { x with status := TxnStatus.CANCELLED, updatedDate := now }))
          t.offerId = some o := by
        rw [findOffer_updateTxnById, hOA]
        exact ho
      constructor
      · intro hdone
        rw [offerStatusIn, hl2frameO, findOffer_notifPersist, findOffer_notifPersist,
          if_pos hdone]
        rw [findOffer_update_self _ t.offerId
          (fun x => { x with status := OfferStatus.ACCEPTED, updatedDate := now })
          (fun x => rfl) o hO1]
        rfl
      · intro hndone
        rw [hl2frameO, findOffer_notifPersist, findOffer_notifPersist, if_neg hndone]
        exact hO1
    · exact processExpired_notif_mono_ex _ _ _ _
        (notifPersist_mem_of_mem _ _ _ _ _ _ (notifPersist_mem _ _ _ _ _ _))
    · exact processExpired_notif_mono_ex _ _ _ _ (notifPersist_mem _ _ _ _ _ _)
  · intro t ht hexp
    have hfind : findTxn db t.id = some t := findTxn_of_mem_nodup db t ht hids
    rw [hcleanup]
    rw [processExpired_txn_frame [] now t.id (expiredSnapshot db now) db ?hfr]
    · exact hfind
    case hfr =>
      intro p hp
      rw [expiredSnapshot] at hp
      obtain ⟨u, hu, rfl⟩ := List.mem_map.mp hp
      intro he
      have hmf := List.mem_filter.mp hu
      have heq : u = t := List.inj_on_of_nodup_map hids hmf.1 ht he
      rw [heq] at hmf
      exact Bool.noConfusion (hmf.2.symm.trans hexp)


/-- C6 witness: a single stale PAYMENT_PENDING transaction over a DONE
offer is swept on the concrete store. -/
theorem c6_expiry_sweep_spec_witness :
    ((c6Db.transactions.map Txn.id).Nodup ∧
     ((c6Db.transactions.filter (isExpired c3Now)).map Txn.offerId).Nodup ∧
     (∀ t ∈ c6Db.transactions, isExpired c3Now t = true →
       (findOffer c6Db t.offerId).isSome = true)) ∧
    ((cleanupExpiredTransactions [] c3Now c6Db).1 = true ∧
     (∀ t ∈ c6Db.transactions, isExpired c3Now t = true →
       txnStatusIn (cleanupExpiredTransactions [] c3Now c6Db).2 t.id =
         some TxnStatus.CANCELLED ∧
       (∀ o, findOffer c6Db t.offerId = some o →
         (o.status = OfferStatus.DONE →
           offerStatusIn (cleanupExpiredTransactions [] c3Now c6Db).2 t.offerId =
             some OfferStatus.ACCEPTED) ∧
         (o.status ≠ OfferStatus.DONE →
           findOffer (cleanupExpiredTransactions [] c3Now c6Db).2 t.offerId = some o)) ∧
       (∃ n ∈ (cleanupExpiredTransactions [] c3Now c6Db).2.notifications,
         n.userId = t.buyerUsername ∧ n.ntype = "TRANSACTION_CANCELLED") ∧
       (∃ n ∈ (cleanupExpiredTransactions [] c3Now c6Db).2.notifications,
         n.userId = t.sellerUsername ∧ n.ntype = "TRANSACTION_CANCELLED")) ∧
     (∀ t ∈ c6Db.transactions, isExpired c3Now t = false →
       findTxn (cleanupExpiredTransactions [] c3Now c6Db).2 t.id = some t)) :=
  ⟨⟨by decide, by decide, by decide⟩,
   c6_expiry_sweep_spec c6Db c3Now (cleanupExpiredTransactions [] c3Now c6Db) rfl
     (by decide) (by decide) (by decide)⟩

end NextMicro
